import Mathlib

/-!
# SimpleBrowser: navigation policy, navigation controller and event sink

A shallow embedding of `src/SimpleBrowser.cpp` and `src/MEventSink.cpp`.

Conventions of the embedding.

* A C wide string (`const WCHAR *`, `BSTR`) is the list of its characters up to, and
  without, the terminating NUL; a `std::wstring` is the list of its characters.
* `BOOL` and `bool` values are `Bool`; `VARIANT_BOOL` is an `Int`
  (`VARIANT_TRUE = -1`, `VARIANT_FALSE = 0`).
* The process-wide statics (`g_settings`, `s_strURL`, ...) are passed explicitly.
* Memory allocation (`_wcsdup`, `SysAllocString`, `new`) succeeds.
* Functions of the Windows shell (`PathFileExists`, `PathIsURL`, ...) are not part
  of the program; their answers are a parameter (`ShellApi`).
* An `assert` is evaluated in a debug build only, where its failure ends the run;
  `DoNavigate` and `MEventSink::Invoke` take the `Build`.  String resources load, so
  the `assert(0)` of `LoadStringDx` is not reached.
-/

namespace SimpleBrowser

/-- A wide-character string without its terminating NUL. -/
abbrev WString := List Char

/-- The wide string literal `L"..."` of the source. -/
def L (s : String) : WString := s.toList

/-! ## String primitives of the C and C++ runtime -/

/-- Function `std::basic_string::find(item)` from position 0: the offset of the first occurrence
of `item`, `none` for `npos`.  The empty `item` is found at offset 0 of every string. -/
def wfind {α : Type} [DecidableEq α] (item : List α) : List α → Option Nat
  | [] => if item.isPrefixOf [] then some 0 else none
  | c :: t => if item.isPrefixOf (c :: t) then some 0 else (wfind item t).map (· + 1)

/-- Function `wcsstr(haystack, needle)`: the offset of the first occurrence, `none` for `NULL`. -/
def wcsstr (haystack needle : WString) : Option Nat := wfind needle haystack

/-- Function `wcschr(s, ch)`: the offset of the first occurrence of `ch`, `none` for
`NULL`.  The terminating NUL counts as part of the string: for `ch` NUL the result is
the offset of the terminator. -/
def wcschr : WString → Char → Option Nat
  | [], ch => if ch = '\x00' then some 0 else none
  | c :: t, ch => if c = ch then some 0 else (wcschr t ch).map (· + 1)

/-! ## Configuration and shell answers -/

/-- The fields of `g_settings` (declared in `Settings.hpp`) that the modelled code reads. -/
structure Settings where
  m_black_list : List WString
  m_local_file_access : Bool
  m_kiosk_mode : Bool
  m_dont_popup : Bool
  m_dont_r_click : Bool
  m_homepage : WString
  m_url_list : List WString
  deriving DecidableEq, Repr

/-- The answers of the shell path/URL predicates called by `IsAccessibleURL`.
`UrlIsAppliable url` stands for `UrlIs(url, URLIS_APPLIABLE)`. -/
structure ShellApi where
  PathFileExists : WString → Bool
  UrlIsFileUrl : WString → Bool
  PathIsUNC : WString → Bool
  PathIsNetworkPath : WString → Bool
  PathIsURL : WString → Bool
  UrlIsAppliable : WString → Bool

/-- The condition of the first `if` of `IsAccessibleURL`: the URL is local-file-like. -/
def ShellApi.localFileLike (api : ShellApi) (url : WString) : Bool :=
  api.PathFileExists url || api.UrlIsFileUrl url ||
    api.PathIsUNC url || api.PathIsNetworkPath url

/-! ## Navigation policy -/

/-- Function `UrlInBlackList`: TRUE when some blacklist item occurs in the URL. -/
def UrlInBlackList (g_settings : Settings) (url : WString) : Bool :=
  g_settings.m_black_list.any (fun item => (wfind item url).isSome)

/-- Function `IsAccessibleProtocol`. -/
def IsAccessibleProtocol (g_settings : Settings) (protocol : WString) : Bool :=
  if protocol = L "http" ∨ protocol = L "https" ∨
      protocol = L "view-source" ∨ protocol = L "about" then
    true
  else if g_settings.m_local_file_access && !g_settings.m_kiosk_mode then
    if protocol = L "file" then true else false
  else
    false

/-- Lines 204-219 of `IsAccessibleURL`: the tests reached when neither the local-file
test nor the scheme block has returned. -/
def IsAccessibleURL.heuristics (api : ShellApi) (url : WString) : Bool :=
  if api.PathIsURL url || api.UrlIsAppliable url then true
  else if wcsstr url (L "www.") = some 0 || wcsstr url (L "ftp.") = some 0 then true
  else
    let cch := url.length
    if 4 ≤ cch && (wcsstr (url.drop (cch - 4)) (L ".com")).isSome then true
    else if 5 ≤ cch && (wcsstr (url.drop (cch - 5)) (L ".com/")).isSome then true
    else if 6 ≤ cch && (wcsstr (url.drop (cch - 6)) (L ".co.jp")).isSome then true
    else if 7 ≤ cch && (wcsstr (url.drop (cch - 7)) (L ".co.jp/")).isSome then true
    else false

/-- Function `IsAccessibleURL`. -/
def IsAccessibleURL (api : ShellApi) (g_settings : Settings) (url : WString) : Bool :=
  if api.PathFileExists url || api.UrlIsFileUrl url ||
      api.PathIsUNC url || api.PathIsNetworkPath url then
    g_settings.m_local_file_access && !g_settings.m_kiosk_mode
  else
    match wcschr url ':' with
    | some n =>
      let protocol := url.take n
      if !IsAccessibleProtocol g_settings protocol then false
      else if (g_settings.m_local_file_access && !g_settings.m_kiosk_mode) &&
          decide (protocol = L "file") then true
      else IsAccessibleURL.heuristics api url
    | none => IsAccessibleURL.heuristics api url

/-! ## Navigation controller -/

/-- Constant `VARIANT_TRUE`. -/
def VARIANT_TRUE : Int := -1

/-- Constant `VARIANT_FALSE`. -/
def VARIANT_FALSE : Int := 0

/-- The string resources (declared in `resource.h`) that the modelled code loads. -/
inductive StringId where
  | IDS_HITBLACKLIST
  | IDS_ACCESS_FAIL
  | IDS_STOP
  | IDS_REFRESH
  deriving DecidableEq, Repr

/-- The `WM_COMMAND` identifiers that the modelled code posts. -/
inductive CommandId where
  | ID_DOCUMENT_COMPLETE
  | ID_VIEW_SOURCE_DONE
  | ID_HOME
  deriving DecidableEq, Repr

/-- A call made on an external collaborator (hosted control, window system, file
system), recorded in the order the code makes it. -/
inductive Effect where
  /-- Call `pDocument->close()` -/
  | document_close
  /-- Call `pDocument->write(sa)`, with the string stored in the one-element array -/
  | document_write (str : WString)
  /-- Call `PostMessage(s_hMainWnd, WM_COMMAND, id, 0)` -/
  | PostMessage (id : CommandId)
  /-- Call `SetDlgItemText(s_hMainWnd, ID_STOP_REFRESH, LoadStringDx(nID))` -/
  | SetDlgItemText_STOP_REFRESH (nID : StringId)
  /-- Call `pApp->Release()` -/
  | pApp_Release
  /-- Call `s_pWebBrowser->Navigate(url)` -/
  | Navigate (url : WString)
  /-- Call `URLDownloadToFile(NULL, new_url, file, 0, pCallback)` -/
  | URLDownloadToFile (new_url file : WString)
  /-- Call `Sleep(100)` -/
  | Sleep
  /-- Call `pCallback->Release()` -/
  | pCallback_Release
  /-- Call `DeleteFile(file)` -/
  | DeleteFile (file : WString)
  /-- Call `SetTimer(s_hMainWnd, SOURCE_DONE_TIMER, 500, NULL)` -/
  | SetTimer_SOURCE_DONE
  /-- Call `s_pWebBrowser->Zoom()` -/
  | Zoom
  deriving DecidableEq, Repr

/-- The navigation statics of `SimpleBrowser.cpp`, the window text of the address bar
(`s_hAddrBarComboBox`), and the calls made so far. -/
structure App where
  s_strURL : WString
  s_strTitle : WString
  s_bLoadingPage : Bool
  addrBarText : WString
  effects : List Effect
  deriving DecidableEq, Repr

/-- What the hosted control (`s_pWebBrowser`) and the resource table answer.
`get_Application = none` is a failed `HRESULT`; `get_Document = none` leaves `pDisp`
NULL; `LoadString` is the text of a string resource. -/
structure Host where
  get_Application : Option Nat
  get_Document : Option Nat
  LoadString : StringId → WString

/-- Function `DoUpdateURL`. -/
def DoUpdateURL (url : WString) (app : App) : App :=
  { app with addrBarText := url }

/-- The loop of `text2html` that escapes the markup characters. -/
def text2html.contents : WString → WString
  | [] => []
  | c :: text =>
    (if c = '<' then L "&lt;"
     else if c = '>' then L "&gt;"
     else if c = '&' then L "&amp;"
     else [c]) ++ text2html.contents text

/-- Function `text2html`. -/
def text2html (text : WString) : WString :=
  L "<html><body><pre>" ++ text2html.contents text ++ L "</pre></body></html>"

/-- Function `SetInternalPageContents` with `SetDocumentContents` inlined: when the
control has a document it is closed and the string (escaped by `text2html` unless
`is_html`) is written to it. -/
def SetInternalPageContents (host : Host) (html : WString) (is_html : Bool)
    (app : App) : App :=
  match host.get_Document with
  | none => app
  | some _ =>
    let str := if !is_html then text2html html else html
    { app with effects := app.effects ++ [Effect.document_close, Effect.document_write str] }

/-- Function `PostMessage(s_hMainWnd, WM_COMMAND, id, 0)`. -/
def PostMessage (id : CommandId) (app : App) : App :=
  { app with effects := app.effects ++ [Effect.PostMessage id] }

/-- Function `MEventHandler::OnBeforeNavigate2`.  `Flags`, `TargetFrameName`,
`PostData` and `Headers` are not read by the handler and are left out; `url` is
`url->bstrVal`; the second component of the result is `*Cancel` on return.  The two
blocked branches return without `pApp->Release()`. -/
def OnBeforeNavigate2 (api : ShellApi) (g_settings : Settings) (host : Host)
    (pDispatch : Nat) (url : WString) (Cancel : Int) (app : App) : App × Int :=
  match host.get_Application with
  | none => (app, Cancel)
  | some pApp =>
    if pApp = pDispatch then
      if UrlInBlackList g_settings url then
        let app := { app with s_strURL := url }
        let app := SetInternalPageContents host (host.LoadString .IDS_HITBLACKLIST) true app
        (PostMessage .ID_DOCUMENT_COMPLETE app, VARIANT_TRUE)
      else if !IsAccessibleURL api g_settings url then
        let app := { app with s_strURL := url }
        let app := SetInternalPageContents host (host.LoadString .IDS_ACCESS_FAIL) true app
        (PostMessage .ID_DOCUMENT_COMPLETE app, VARIANT_TRUE)
      else
        let app := { app with s_bLoadingPage := true }
        let app := DoUpdateURL url app
        ({ app with effects := app.effects ++
            [Effect.SetDlgItemText_STOP_REFRESH .IDS_STOP, Effect.pApp_Release] }, Cancel)
    else
      ({ app with effects := app.effects ++ [Effect.pApp_Release] }, Cancel)

/-- Function `OnDocumentComplete`: the handler of the posted `ID_DOCUMENT_COMPLETE`
command. -/
def OnDocumentComplete (app : App) : App :=
  { app with addrBarText := app.s_strURL }

/-! ## View-source download and `DoNavigate` -/

/-- The narrow string literal `"..."` of the source, as its bytes. -/
def A (s : String) : List Nat := s.toList.map Char.toNat

/-- Function `StrTrimW(psz, pszTrimChars)`: removes the leading and the trailing
characters that occur in `pszTrimChars`. -/
def StrTrimW (psz pszTrimChars : WString) : WString :=
  ((psz.dropWhile (fun c => decide (c ∈ pszTrimChars))).reverse.dropWhile
    (fun c => decide (c ∈ pszTrimChars))).reverse

/-- One evaluation of the polling condition of `DoNavigate`: `pCallback->IsCompleted()`,
`pCallback->IsCancelled()`, and whether `GetAsyncKeyState(VK_ESCAPE) < 0`. -/
structure PollObs where
  IsCompleted : Bool
  IsCancelled : Bool
  escapeDown : Bool
  deriving DecidableEq, Repr

/-- What the file system, the network and the download callback answer during one
view-source request.  `URLDownloadToFile u` is `SUCCEEDED(hr)` of the download of `u`;
`polls` are the successive observations of the polling loop; `fopen` is the content of
the temporary file when `_wfopen` succeeds; `MultiByteToWideChar cp bytes` is the
decoded text. -/
structure DownloadEnv where
  DoGetTemporaryFile : Option WString
  URLDownloadToFile : WString → Bool
  polls : List PollObs
  fopen : Option (List Nat)
  MultiByteToWideChar : Nat → List Nat → WString

/-- The chain of `if (FAILED(hr))` blocks of `DoNavigate` over the candidate URLs: the
URLs whose download was attempted, in order, and `SUCCEEDED(hr)` at the end. -/
def DoNavigate.tryDownloads (env : DownloadEnv) : List WString → List WString × Bool
  | [] => ([], false)
  | new_url :: rest =>
    if env.URLDownloadToFile new_url then ([new_url], true)
    else ((DoNavigate.tryDownloads env rest).1.cons new_url,
          (DoNavigate.tryDownloads env rest).2)

/-- The candidate URLs of a view-source request, in the order of the source. -/
def DoNavigate.candidates (substr : WString) : List WString :=
  [substr, L "https:" ++ substr, L "https://" ++ substr,
   L "http:" ++ substr, L "http://" ++ substr]

/-- The polling loop of `DoNavigate`: the number of `Sleep(100)` calls and the
observation that ended the loop; `none` when the observations run out first. -/
def DoNavigate.waitLoop : List PollObs → Option (Nat × PollObs)
  | [] => none
  | o :: rest =>
    if !o.IsCompleted && !o.IsCancelled && !o.escapeDown then
      (DoNavigate.waitLoop rest).map (fun r => (r.1 + 1, r.2))
    else some (0, o)

/-- Constant `CP_UTF8`. -/
def CP_UTF8 : Nat := 65001

/-- The code page chosen in `DoNavigate` from marker tokens in the fetched bytes. -/
def DoNavigate.codePage (contents : List Nat) : Nat :=
  if (wfind (A "Shift_JIS") contents).isSome ||
      (wfind (A "shift_jis") contents).isSome ||
      (wfind (A "x-sjis") contents).isSome then 932
  else if (wfind (A "ISO-8859-1") contents).isSome ||
      (wfind (A "iso-8859-1") contents).isSome then 28591
  else CP_UTF8

/-- Whether `assert` is compiled in (`debug`) or out (`release`, `NDEBUG`). -/
inductive Build where
  | debug
  | release
  deriving DecidableEq, Repr

/-- How a run of `DoNavigate` ends: it returns, an `assert(0)` fails (debug build), or
the polling loop does not end within the observations.  The first two carry the state
reached, so the calls made before a failed `assert` stay visible. -/
inductive NavigateOutcome where
  | returned (app : App)
  | assertion_failed (app : App)
  | polling
  deriving DecidableEq, Repr

/-- The state in which a run of `DoNavigate` ended; `none` while the polling loop has
not ended. -/
def NavigateOutcome.app? : NavigateOutcome → Option App
  | .returned app => some app
  | .assertion_failed app => some app
  | .polling => none

/-- Statement `assert(0);` reached in state `app`: a debug build stops there, a release
build goes on with `rest`. -/
def assert0 (build : Build) (app : App) (rest : NavigateOutcome) : NavigateOutcome :=
  match build with
  | .debug => .assertion_failed app
  | .release => rest

/-- The body of `if (WCHAR *file = DoGetTemporaryFile())` in `DoNavigate`, with the
`assert(0)` of lines 461, 466 and 471. -/
def DoNavigate.viewSource (build : Build) (host : Host) (env : DownloadEnv)
    (file substr : WString) (app : App) : NavigateOutcome :=
  let r := DoNavigate.tryDownloads env (DoNavigate.candidates substr)
  let attempts := List.map (fun new_url => Effect.URLDownloadToFile new_url file) r.1
  let app := { app with effects := app.effects ++ attempts }
  let cleanup (a : App) : App :=
    { a with effects := a.effects ++ [Effect.pCallback_Release, Effect.DeleteFile file] }
  if r.2 then
    match DoNavigate.waitLoop env.polls with
    | none => .polling
    | some (n, o) =>
      let app := { app with effects := app.effects ++ List.replicate n Effect.Sleep }
      if o.IsCompleted then
        match env.fopen with
        | some contents =>
          let nCodePage := DoNavigate.codePage contents
          let wide := env.MultiByteToWideChar nCodePage (contents.takeWhile (· ≠ 0))
          .returned (cleanup (SetInternalPageContents host wide false app))
        | none => assert0 build app (.returned (cleanup app))
      else assert0 build app (.returned (cleanup app))
  else assert0 build app (.returned (cleanup app))

/-- Function `DoNavigate`, with the `assert(0)` of line 479 and those of the view-source
body; `_wcsdup` is taken to succeed, so the `assert(0)` of line 379 is not reached.  The
`Navigate` call receives `url` as passed, not the trimmed `strURL`. -/
def DoNavigate (build : Build) (host : Host) (env : DownloadEnv) (url : WString)
    (app : App) : NavigateOutcome :=
  let strURL := StrTrimW url (L " \t\n\r\x0c\x0b")
  if wfind (L "view-source:") strURL = some 0 then
    let refresh (a : App) : App :=
      let a := DoUpdateURL strURL a
      { a with effects := a.effects ++ [Effect.SetTimer_SOURCE_DONE] }
    match env.DoGetTemporaryFile with
    | some file =>
      match DoNavigate.viewSource build host env file
          (strURL.drop (L "view-source:").length) app with
      | .returned a => .returned (refresh a)
      | o => o
    | none => assert0 build app (.returned (refresh app))
  else
    .returned { app with effects := app.effects ++ [Effect.Navigate url] }

/-! ## Event sink (`MEventSink.cpp`) -/

/-- Constant `S_OK`. -/
def S_OK : Nat := 0

/-- Constant `DISP_E_MEMBERNOTFOUND`. -/
def DISP_E_MEMBERNOTFOUND : Nat := 0x80020003

/-! The `DISPID_*` values of `exdispid.h`; `DISPID_BEFORESCRIPTEXECUTE` is defined in
the source. -/

def DISPID_STATUSTEXTCHANGE : Int := 102
def DISPID_QUIT : Int := 103
def DISPID_DOWNLOADCOMPLETE : Int := 104
def DISPID_COMMANDSTATECHANGE : Int := 105
def DISPID_DOWNLOADBEGIN : Int := 106
def DISPID_PROGRESSCHANGE : Int := 108
def DISPID_TITLECHANGE : Int := 113
def DISPID_BEFORENAVIGATE2 : Int := 250
def DISPID_NAVIGATECOMPLETE2 : Int := 252
def DISPID_DOCUMENTCOMPLETE : Int := 259
def DISPID_SETSECURELOCKICON : Int := 269
def DISPID_FILEDOWNLOAD : Int := 270
def DISPID_NAVIGATEERROR : Int := 271
def DISPID_NEWWINDOW3 : Int := 273
def DISPID_BEFORESCRIPTEXECUTE : Int := 290

/-- The fifteen identifiers that have a `case` in `MEventSink::Invoke`. -/
def handledDispIds : List Int :=
  [DISPID_BEFORENAVIGATE2, DISPID_NAVIGATECOMPLETE2, DISPID_NEWWINDOW3,
   DISPID_COMMANDSTATECHANGE, DISPID_TITLECHANGE, DISPID_STATUSTEXTCHANGE,
   DISPID_FILEDOWNLOAD, DISPID_DOCUMENTCOMPLETE, DISPID_NAVIGATEERROR,
   DISPID_DOWNLOADBEGIN, DISPID_DOWNLOADCOMPLETE, DISPID_SETSECURELOCKICON,
   DISPID_PROGRESSCHANGE, DISPID_BEFORESCRIPTEXECUTE, DISPID_QUIT]

/-! The `VARTYPE` tags of `wtypes.h`. -/

def VT_EMPTY : Nat := 0
def VT_I4 : Nat := 3
def VT_R8 : Nat := 5
def VT_BSTR : Nat := 8
def VT_DISPATCH : Nat := 9
def VT_BOOL : Nat := 11
def VT_VARIANT : Nat := 12
def VT_UNKNOWN : Nat := 13
def VT_BYREF : Nat := 0x4000

/-- An argument slot: a `VARIANT` whose union holds what its type tag announces. -/
inductive VARIANT where
  | EMPTY
  | I4 (lVal : Int)
  | R8 (bits : Nat)
  | BSTR (bstrVal : WString)
  | DISPATCH (pdispVal : Nat)
  | BOOL (boolVal : Int)
  | UNKNOWN (punkVal : Nat)
  | BYREF_BOOL (pboolVal : Nat)
  | BYREF_DISPATCH (ppdispVal : Nat)
  | BYREF_VARIANT (pvarVal : VARIANT)
  deriving DecidableEq, Repr

/-- The type tag `vt` of a slot. -/
def VARIANT.vt : VARIANT → Nat
  | .EMPTY => VT_EMPTY
  | .I4 _ => VT_I4
  | .R8 _ => VT_R8
  | .BSTR _ => VT_BSTR
  | .DISPATCH _ => VT_DISPATCH
  | .BOOL _ => VT_BOOL
  | .UNKNOWN _ => VT_UNKNOWN
  | .BYREF_BOOL _ => VT_BYREF ||| VT_BOOL
  | .BYREF_DISPATCH _ => VT_BYREF ||| VT_DISPATCH
  | .BYREF_VARIANT _ => VT_BYREF ||| VT_VARIANT

/-- A call of a listener method.  Each argument is the `VARIANT` from whose union the
source reads the value it passes (for `rgvarg[i].pvarVal->bstrVal` the `VARIANT` that
`rgvarg[i].pvarVal` points to), in the order of the method's parameters. -/
inductive ListenerCall where
  | BeforeNavigate2 (pDispatch url Flags TargetFrameName PostData Headers Cancel : VARIANT)
  | NavigateComplete2 (pDispatch URL : VARIANT)
  | NewWindow3 (ppDisp Cancel dwFlags bstrUrlContext bstrUrl : VARIANT)
  | CommandStateChange (Command Enable : VARIANT)
  | TitleTextChange (Text : VARIANT)
  | StatusTextChange (Text : VARIANT)
  | FileDownload (ActiveDocument Cancel : VARIANT)
  | DocumentComplete (pDispatch URL : VARIANT)
  | NavigateError (pDispatch URL TargetFrameName StatusCode Cancel : VARIANT)
  | DownloadBegin
  | DownloadComplete
  | SetSecureLockIcon (SecureLockIcon : VARIANT)
  | ProgressChange (Progress ProgressMax : VARIANT)
  | BeforeScriptExecute (pDispWindow : VARIANT)
  | OnQuit
  deriving DecidableEq, Repr

/-- What `MEventSink::Invoke` does besides returning. -/
inductive SinkEffect where
  /-- Call `m_pListener->Method(...)` -/
  | call (c : ListenerCall)
  /-- Call `printf("dispIdMember: %ld\n", dispIdMember)` -/
  | printf (dispIdMember : Int)
  deriving DecidableEq, Repr

/-- How a run of `MEventSink::Invoke` ends: it returns an `HRESULT` after the recorded
effects, an `assert` fails (debug build), or it reads a slot outside the argument array
or through a `pvarVal` that the slot does not hold (undefined behaviour). -/
inductive Outcome where
  | returned (hr : Nat) (effects : List SinkEffect)
  | assertion_failed
  | undefined
  deriving DecidableEq, Repr

/-- The data members of `MEventSink`; a null pointer is `none`. -/
structure MEventSink where
  m_cRefs : Nat
  m_pListener : Option Nat
  m_dwCookie : Nat
  m_pConnectPoint : Option Nat
  deriving DecidableEq, Repr

/-- The condition of one `assert` of `MEventSink::Invoke`. -/
inductive Check where
  /-- Condition `rgvarg[i].vt == tag` -/
  | vt (i : Nat) (tag : Nat)
  /-- Condition `rgvarg[i].pvarVal->vt == tag` -/
  | pvarVal_vt (i : Nat) (tag : Nat)
  /-- Condition `cArgs == n` -/
  | cArgs (n : Nat)
  deriving DecidableEq, Repr

/-- The value of an `assert` condition; `none` when evaluating it reads outside the
argument array or through a `pvarVal` the slot does not hold. -/
def Check.eval (rgvarg : List VARIANT) : Check → Option Bool
  | .vt i tag => (rgvarg.get? i).map (fun v => decide (v.vt = tag))
  | .pvarVal_vt i tag =>
    match rgvarg.get? i with
    | some (.BYREF_VARIANT v) => some (decide (v.vt = tag))
    | _ => none
  | .cArgs n => some (decide (rgvarg.length = n))

/-- The `VARIANT` that `rgvarg[i].pvarVal` points to. -/
def pvarVal (rgvarg : List VARIANT) (i : Nat) : Option VARIANT :=
  match rgvarg.get? i with
  | some (.BYREF_VARIANT v) => some v
  | _ => none

/-- The `assert`s of one `case`, in order: `none` when all pass or the build is a
release build, otherwise the outcome that ends the run. -/
def runAsserts (build : Build) (rgvarg : List VARIANT) : List Check → Option Outcome
  | [] => none
  | c :: rest =>
    match build with
    | .release => none
    | .debug =>
      match c.eval rgvarg with
      | none => some .undefined
      | some false => some .assertion_failed
      | some true => runAsserts build rgvarg rest

/-- One `case` of the `switch` of `MEventSink::Invoke`: its `assert`s, then the listener
call (`none` when an argument cannot be read), then `return S_OK`. -/
def Invoke.case (build : Build) (rgvarg : List VARIANT) (asserts : List Check)
    (call : Option ListenerCall) : Outcome :=
  match runAsserts build rgvarg asserts with
  | some o => o
  | none =>
    match call with
    | none => .undefined
    | some c => .returned S_OK [.call c]

/-- The result of `MEventSink::Invoke`: the adapter afterwards and how the run ended. -/
structure InvokeResult where
  sink : MEventSink
  outcome : Outcome
  deriving DecidableEq, Repr

/-- Function `MEventSink::Invoke`.  `rgvarg` is `pDispParams->rgvarg` with
`pDispParams->cArgs = rgvarg.length`, and `rgvarg.get? i` is the slot `rgvarg[i]`
(`none` outside the array); `riid`, `lcid`, `wFlags`, `pVarResult`, `pExcepInfo` and
`puArgErr` are not read. -/
def MEventSink.Invoke (build : Build) (self : MEventSink) (dispIdMember : Int)
    (rgvarg : List VARIANT) : InvokeResult :=
  match self.m_pListener with
  | none => ⟨self, .returned DISP_E_MEMBERNOTFOUND []⟩
  | some _ =>
    if dispIdMember = DISPID_BEFORENAVIGATE2 then
      ⟨self, Invoke.case build rgvarg
        [.vt 6 VT_DISPATCH,
         .vt 5 (VT_BYREF ||| VT_VARIANT), .pvarVal_vt 5 VT_BSTR,
         .vt 4 (VT_BYREF ||| VT_VARIANT), .pvarVal_vt 4 VT_I4,
         .vt 3 (VT_BYREF ||| VT_VARIANT), .pvarVal_vt 3 VT_BSTR,
         .vt 2 (VT_BYREF ||| VT_VARIANT), .pvarVal_vt 2 (VT_BYREF ||| VT_VARIANT),
         .vt 1 (VT_BYREF ||| VT_VARIANT), .pvarVal_vt 1 VT_BSTR,
         .vt 0 (VT_BYREF ||| VT_BOOL)]
        (do
          let a6 ← rgvarg.get? 6
          let a5 ← rgvarg.get? 5
          let a4 ← rgvarg.get? 4
          let a3 ← rgvarg.get? 3
          let a2 ← rgvarg.get? 2
          let a1 ← rgvarg.get? 1
          let a0 ← rgvarg.get? 0
          pure (.BeforeNavigate2 a6 a5 a4 a3 a2 a1 a0))⟩
    else if dispIdMember = DISPID_NAVIGATECOMPLETE2 then
      ⟨self, Invoke.case build rgvarg
        [.vt 1 VT_DISPATCH, .vt 0 (VT_BYREF ||| VT_VARIANT)]
        (do
          let a1 ← rgvarg.get? 1
          let a0 ← pvarVal rgvarg 0
          pure (.NavigateComplete2 a1 a0))⟩
    else if dispIdMember = DISPID_NEWWINDOW3 then
      ⟨self, Invoke.case build rgvarg
        [.vt 4 (VT_BYREF ||| VT_DISPATCH), .vt 3 (VT_BYREF ||| VT_BOOL),
         .vt 2 VT_I4, .vt 1 VT_BSTR, .vt 0 VT_BSTR]
        (do
          let a4 ← rgvarg.get? 4
          let a3 ← rgvarg.get? 3
          let a2 ← rgvarg.get? 2
          let a1 ← rgvarg.get? 1
          let a0 ← rgvarg.get? 0
          pure (.NewWindow3 a4 a3 a2 a1 a0))⟩
    else if dispIdMember = DISPID_COMMANDSTATECHANGE then
      ⟨self, Invoke.case build rgvarg
        [.vt 1 VT_I4, .vt 0 VT_BOOL]
        (do
          let a1 ← rgvarg.get? 1
          let a0 ← rgvarg.get? 0
          pure (.CommandStateChange a1 a0))⟩
    else if dispIdMember = DISPID_TITLECHANGE then
      ⟨self, Invoke.case build rgvarg
        [.vt 0 VT_BSTR]
        (do
          let a0 ← rgvarg.get? 0
          pure (.TitleTextChange a0))⟩
    else if dispIdMember = DISPID_STATUSTEXTCHANGE then
      ⟨self, Invoke.case build rgvarg
        [.vt 0 VT_BSTR]
        (do
          let a0 ← rgvarg.get? 0
          pure (.StatusTextChange a0))⟩
    else if dispIdMember = DISPID_FILEDOWNLOAD then
      ⟨self, Invoke.case build rgvarg
        [.vt 1 VT_BOOL, .vt 0 (VT_BYREF ||| VT_BOOL)]
        (do
          let a1 ← rgvarg.get? 1
          let a0 ← rgvarg.get? 0
          pure (.FileDownload a1 a0))⟩
    else if dispIdMember = DISPID_DOCUMENTCOMPLETE then
      ⟨self, Invoke.case build rgvarg
        [.vt 1 VT_DISPATCH, .vt 0 (VT_BYREF ||| VT_VARIANT), .pvarVal_vt 0 VT_BSTR]
        (do
          let a1 ← rgvarg.get? 1
          let a0 ← pvarVal rgvarg 0
          pure (.DocumentComplete a1 a0))⟩
    else if dispIdMember = DISPID_NAVIGATEERROR then
      ⟨self, Invoke.case build rgvarg
        [.vt 4 VT_DISPATCH,
         .vt 3 (VT_BYREF ||| VT_VARIANT), .pvarVal_vt 3 VT_BSTR,
         .vt 2 (VT_BYREF ||| VT_VARIANT), .pvarVal_vt 2 VT_BSTR,
         .vt 1 (VT_BYREF ||| VT_VARIANT), .pvarVal_vt 1 VT_I4,
         .vt 0 (VT_BYREF ||| VT_BOOL)]
        (do
          let a4 ← rgvarg.get? 4
          let a3 ← rgvarg.get? 3
          let a2 ← rgvarg.get? 2
          let a1 ← pvarVal rgvarg 1
          let a0 ← rgvarg.get? 0
          pure (.NavigateError a4 a3 a2 a1 a0))⟩
    else if dispIdMember = DISPID_DOWNLOADBEGIN then
      ⟨self, Invoke.case build rgvarg [] (some .DownloadBegin)⟩
    else if dispIdMember = DISPID_DOWNLOADCOMPLETE then
      ⟨self, Invoke.case build rgvarg [] (some .DownloadComplete)⟩
    else if dispIdMember = DISPID_SETSECURELOCKICON then
      ⟨self, Invoke.case build rgvarg
        [.vt 0 VT_I4]
        (do
          let a0 ← rgvarg.get? 0
          pure (.SetSecureLockIcon a0))⟩
    else if dispIdMember = DISPID_PROGRESSCHANGE then
      ⟨self, Invoke.case build rgvarg
        [.vt 1 VT_I4, .vt 0 VT_I4]
        (do
          let a1 ← rgvarg.get? 1
          let a0 ← rgvarg.get? 0
          pure (.ProgressChange a1 a0))⟩
    else if dispIdMember = DISPID_BEFORESCRIPTEXECUTE then
      ⟨self, Invoke.case build rgvarg
        [.cArgs 1, .vt 0 VT_DISPATCH]
        (do
          let a0 ← rgvarg.get? 0
          pure (.BeforeScriptExecute a0))⟩
    else if dispIdMember = DISPID_QUIT then
      ⟨self, Invoke.case build rgvarg [.cArgs 0] (some .OnQuit)⟩
    else
      ⟨self, .returned DISP_E_MEMBERNOTFOUND [.printf dispIdMember]⟩


/-! ## Further handlers of `MEventHandler` -/

/-- Function `MEventHandler::OnNavigateComplete2`; `URL` is `URL->bstrVal`. -/
def OnNavigateComplete2 (host : Host) (pDispatch : Nat) (URL : WString) (app : App) :
    App :=
  match host.get_Application with
  | none => app
  | some pApp =>
    if pApp = pDispatch then
      let app := { app with s_strURL := URL }
      let app := { app with effects := app.effects ++
        [Effect.SetDlgItemText_STOP_REFRESH .IDS_REFRESH, Effect.Zoom] }
      let app := { app with s_bLoadingPage := false }
      let app := PostMessage .ID_DOCUMENT_COMPLETE app
      { app with effects := app.effects ++ [Effect.pApp_Release] }
    else
      { app with effects := app.effects ++ [Effect.pApp_Release] }

/-- Function `MEventHandler::OnNewWindow3`.  `ppDisp` is the pointer stored in `*ppDisp`
and `Cancel` the flag stored in `*Cancel`; the result holds the navigation state, then
`*ppDisp` and `*Cancel` on return. -/
def OnNewWindow3 (g_settings : Settings) (ppDisp : Nat) (Cancel : Int) (_dwFlags : Nat)
    (_bstrUrlContext _bstrUrl : WString) (app : App) : App × Nat × Int :=
  if g_settings.m_dont_popup || g_settings.m_kiosk_mode then
    (app, ppDisp, VARIANT_TRUE)
  else
    (app, ppDisp, Cancel)

/-- Function `MEventHandler::OnFileDownload`; the result holds the navigation state and
`*Cancel` on return. -/
def OnFileDownload (g_settings : Settings) (_ActiveDocument : Int) (Cancel : Int)
    (app : App) : App × Int :=
  if g_settings.m_dont_r_click || g_settings.m_kiosk_mode then
    (app, VARIANT_TRUE)
  else
    (app, Cancel)

/-- The escaping of `text2html` in the words of the specification: each `<` becomes
`&lt;`, each `>` becomes `&gt;`, each `&` becomes `&amp;`, every other character is
copied. -/
def esc (t : WString) : WString :=
  t.flatMap (fun c =>
    if c = '<' then L "&lt;"
    else if c = '>' then L "&gt;"
    else if c = '&' then L "&amp;"
    else [c])

/-! ## Connecting and disconnecting the event sink -/

/-- A call that `Connect` or `Disconnect` makes on the hosted object, its connection
point container or a connection point, with the answer it gets. -/
inductive ComCall where
  /-- Call `pUnknown->QueryInterface(IID_PPV_ARGS(&pContainer))`; `ok` is `SUCCEEDED(hr)` -/
  | QueryInterface (ok : Bool)
  /-- Call `pContainer->FindConnectionPoint(DIID_DWebBrowserEvents2, &m_pConnectPoint)`;
  the connection point on success -/
  | FindConnectionPoint (point : Option Nat)
  /-- Call `m_pConnectPoint->Advise(this, &m_dwCookie)`; the cookie on success -/
  | Advise (point : Nat) (cookie : Option Nat)
  /-- Call `pContainer->Release()` -/
  | pContainer_Release
  /-- Call `m_pConnectPoint->Unadvise(m_dwCookie)` -/
  | Unadvise (point : Nat) (cookie : Nat)
  /-- Call `m_pConnectPoint->Release()` -/
  | pConnectPoint_Release (point : Nat)
  deriving DecidableEq, Repr

/-- The answers that one call of `Connect` gets: whether `QueryInterface` succeeds, the
connection point that `FindConnectionPoint` stores on success, and the cookie that
`Advise` stores on success.  On failure `FindConnectionPoint` stores NULL and `Advise`
stores 0, as their interface contracts say. -/
structure ConnectAnswers where
  QueryInterface : Bool
  FindConnectionPoint : Option Nat
  Advise : Option Nat
  deriving DecidableEq, Repr

/-- Function `MEventSink::Create`: the adapter as its constructor leaves it. -/
def MEventSink.Create : MEventSink where
  m_cRefs := 1
  m_pListener := none
  m_dwCookie := 0
  m_pConnectPoint := none

/-- Function `MEventSink::Disconnect`: the adapter afterwards and the calls made. -/
def MEventSink.Disconnect (self : MEventSink) : MEventSink × List ComCall :=
  match self.m_pConnectPoint with
  | some point =>
    if self.m_dwCookie ≠ 0 then
      ({ self with m_pConnectPoint := none, m_dwCookie := 0, m_pListener := none },
        [ComCall.Unadvise point self.m_dwCookie, ComCall.pConnectPoint_Release point])
    else
      ({ self with m_pListener := none }, [])
  | none => ({ self with m_pListener := none }, [])

/-- Function `MEventSink::Connect`: the adapter afterwards, the returned
`SUCCEEDED(hr)`, and the calls made.  `pListener` is not NULL (`assert(pListener)`). -/
def MEventSink.Connect (self : MEventSink) (answers : ConnectAnswers) (pListener : Nat) :
    MEventSink × Bool × List ComCall :=
  let d := self.Disconnect
  let self := { d.1 with m_pListener := some pListener }
  if answers.QueryInterface then
    match answers.FindConnectionPoint with
    | some point =>
      match answers.Advise with
      | some cookie =>
        ({ self with m_pConnectPoint := some point, m_dwCookie := cookie }, true,
          d.2 ++ [ComCall.QueryInterface true, ComCall.FindConnectionPoint (some point),
            ComCall.Advise point (some cookie), ComCall.pContainer_Release])
      | none =>
        ({ self with m_pConnectPoint := some point, m_dwCookie := 0 }, false,
          d.2 ++ [ComCall.QueryInterface true, ComCall.FindConnectionPoint (some point),
            ComCall.Advise point none, ComCall.pContainer_Release])
    | none =>
      ({ self with m_pConnectPoint := none }, false,
        d.2 ++ [ComCall.QueryInterface true, ComCall.FindConnectionPoint none,
          ComCall.pContainer_Release])
  else
    (self, false, d.2 ++ [ComCall.QueryInterface false])

/-- A call on the adapter: `Connect` with the answers it gets and its listener, or
`Disconnect`. -/
inductive SinkOp where
  | Connect (answers : ConnectAnswers) (pListener : Nat)
  | Disconnect
  deriving DecidableEq, Repr

/-- One call on the adapter: the adapter afterwards and the calls made. -/
def SinkOp.run (op : SinkOp) (self : MEventSink) : MEventSink × List ComCall :=
  match op with
  | .Connect answers pListener =>
    ((self.Connect answers pListener).1, (self.Connect answers pListener).2.2)
  | .Disconnect => self.Disconnect

/-- A sequence of calls on the adapter: the adapter afterwards and all calls made. -/
def runOps : List SinkOp → MEventSink → MEventSink × List ComCall
  | [], self => (self, [])
  | op :: rest, self =>
    ((runOps rest (op.run self).1).1, (op.run self).2 ++ (runOps rest (op.run self).1).2)

/-- The subscriptions (connection point and cookie) that are active after a call:
a successful `Advise` adds one, an `Unadvise` removes the one it names. -/
def activeStep (active : List (Nat × Nat)) : ComCall → List (Nat × Nat)
  | .Advise point (some cookie) => active ++ [(point, cookie)]
  | .Unadvise point cookie => active.erase (point, cookie)
  | _ => active

/-- The active subscriptions before the first call and after each call of a trace. -/
def activeHistory (active : List (Nat × Nat)) : List ComCall → List (List (Nat × Nat))
  | [] => [active]
  | call :: rest => active :: activeHistory (activeStep active call) rest

/-- Whether every successful `Advise` of a `Connect` call returns a nonzero cookie. -/
def SinkOp.nonzeroCookie : SinkOp → Bool
  | .Connect answers _ => decide (answers.Advise ≠ some 0)
  | .Disconnect => true

/-! ## Well-formed notifications -/

/-- The identifier whose `case` invokes a listener method. -/
def ListenerCall.dispId : ListenerCall → Int
  | .BeforeNavigate2 .. => DISPID_BEFORENAVIGATE2
  | .NavigateComplete2 .. => DISPID_NAVIGATECOMPLETE2
  | .NewWindow3 .. => DISPID_NEWWINDOW3
  | .CommandStateChange .. => DISPID_COMMANDSTATECHANGE
  | .TitleTextChange .. => DISPID_TITLECHANGE
  | .StatusTextChange .. => DISPID_STATUSTEXTCHANGE
  | .FileDownload .. => DISPID_FILEDOWNLOAD
  | .DocumentComplete .. => DISPID_DOCUMENTCOMPLETE
  | .NavigateError .. => DISPID_NAVIGATEERROR
  | .DownloadBegin => DISPID_DOWNLOADBEGIN
  | .DownloadComplete => DISPID_DOWNLOADCOMPLETE
  | .SetSecureLockIcon .. => DISPID_SETSECURELOCKICON
  | .ProgressChange .. => DISPID_PROGRESSCHANGE
  | .BeforeScriptExecute .. => DISPID_BEFORESCRIPTEXECUTE
  | .OnQuit => DISPID_QUIT

/-- The arguments of a listener call, in the order of the parameters. -/
def ListenerCall.args : ListenerCall → List VARIANT
  | .BeforeNavigate2 a b c d e f g => [a, b, c, d, e, f, g]
  | .NavigateComplete2 a b => [a, b]
  | .NewWindow3 a b c d e => [a, b, c, d, e]
  | .CommandStateChange a b => [a, b]
  | .TitleTextChange a => [a]
  | .StatusTextChange a => [a]
  | .FileDownload a b => [a, b]
  | .DocumentComplete a b => [a, b]
  | .NavigateError a b c d e => [a, b, c, d, e]
  | .DownloadBegin => []
  | .DownloadComplete => []
  | .SetSecureLockIcon a => [a]
  | .ProgressChange a b => [a, b]
  | .BeforeScriptExecute a => [a]
  | .OnQuit => []

/-- An argument is read from a slot: from the slot's own union, or from the `VARIANT`
that the slot's `pvarVal` points to. -/
def readFrom (slot arg : VARIANT) : Prop :=
  arg = slot ∨ slot = .BYREF_VARIANT arg

/-- The slots that `MEventSink::Invoke` reads through `pvarVal`, each as the identifier of
the `case` and the index of the slot: the URL of NavigateComplete2 and of
DocumentComplete, and the status code of NavigateError. -/
def derefSlots : List (Int × Nat) :=
  [(DISPID_NAVIGATECOMPLETE2, 0), (DISPID_DOCUMENTCOMPLETE, 0), (DISPID_NAVIGATEERROR, 1)]

/-- The number of slots that the `case` of an identifier passes to its listener method:
the slots `rgvarg[paramCount - 1]`, ..., `rgvarg[0]`. -/
def paramCount (dispIdMember : Int) : Nat :=
  if dispIdMember = DISPID_BEFORENAVIGATE2 then 7
  else if dispIdMember = DISPID_NAVIGATECOMPLETE2 then 2
  else if dispIdMember = DISPID_NEWWINDOW3 then 5
  else if dispIdMember = DISPID_COMMANDSTATECHANGE then 2
  else if dispIdMember = DISPID_TITLECHANGE then 1
  else if dispIdMember = DISPID_STATUSTEXTCHANGE then 1
  else if dispIdMember = DISPID_FILEDOWNLOAD then 2
  else if dispIdMember = DISPID_DOCUMENTCOMPLETE then 2
  else if dispIdMember = DISPID_NAVIGATEERROR then 5
  else if dispIdMember = DISPID_SETSECURELOCKICON then 1
  else if dispIdMember = DISPID_PROGRESSCHANGE then 2
  else if dispIdMember = DISPID_BEFORESCRIPTEXECUTE then 1
  else 0

/-- The value that a `case` passes for slot `k`: the `VARIANT` behind the slot's
`pvarVal` for the slots of `derefSlots`, the slot itself otherwise; `none` when the slot
is outside the array or holds no `pvarVal`. -/
def slotValue (dispIdMember : Int) (rgvarg : List VARIANT) (k : Nat) : Option VARIANT :=
  if (dispIdMember, k) ∈ derefSlots then pvarVal rgvarg k else rgvarg.get? k

/-- The well-formed argument arrays of each recognised identifier: the slot count of the
event and, slot 0 first, the type tags that the `assert`s of its `case` expect. -/
inductive WellFormed : Int → List VARIANT → Prop where
  | BeforeNavigate2 (pDisp : Nat) (url : WString) (Flags : Int)
      (TargetFrameName : WString) (PostData : VARIANT) (Headers : WString)
      (Cancel : Nat) :
      WellFormed DISPID_BEFORENAVIGATE2
        [.BYREF_BOOL Cancel, .BYREF_VARIANT (.BSTR Headers),
         .BYREF_VARIANT (.BYREF_VARIANT PostData),
         .BYREF_VARIANT (.BSTR TargetFrameName), .BYREF_VARIANT (.I4 Flags),
         .BYREF_VARIANT (.BSTR url), .DISPATCH pDisp]
  | NavigateComplete2 (pDisp : Nat) (URL : WString) :
      WellFormed DISPID_NAVIGATECOMPLETE2 [.BYREF_VARIANT (.BSTR URL), .DISPATCH pDisp]
  | NewWindow3 (ppDisp Cancel : Nat) (dwFlags : Int) (bstrUrlContext bstrUrl : WString) :
      WellFormed DISPID_NEWWINDOW3
        [.BSTR bstrUrl, .BSTR bstrUrlContext, .I4 dwFlags, .BYREF_BOOL Cancel,
         .BYREF_DISPATCH ppDisp]
  | CommandStateChange (Command Enable : Int) :
      WellFormed DISPID_COMMANDSTATECHANGE [.BOOL Enable, .I4 Command]
  | TitleTextChange (Text : WString) : WellFormed DISPID_TITLECHANGE [.BSTR Text]
  | StatusTextChange (Text : WString) : WellFormed DISPID_STATUSTEXTCHANGE [.BSTR Text]
  | FileDownload (ActiveDocument : Int) (Cancel : Nat) :
      WellFormed DISPID_FILEDOWNLOAD [.BYREF_BOOL Cancel, .BOOL ActiveDocument]
  | DocumentComplete (pDisp : Nat) (URL : WString) :
      WellFormed DISPID_DOCUMENTCOMPLETE [.BYREF_VARIANT (.BSTR URL), .DISPATCH pDisp]
  | NavigateError (pDisp : Nat) (URL TargetFrameName : WString) (StatusCode : Int)
      (Cancel : Nat) :
      WellFormed DISPID_NAVIGATEERROR
        [.BYREF_BOOL Cancel, .BYREF_VARIANT (.I4 StatusCode),
         .BYREF_VARIANT (.BSTR TargetFrameName), .BYREF_VARIANT (.BSTR URL),
         .DISPATCH pDisp]
  | DownloadBegin : WellFormed DISPID_DOWNLOADBEGIN []
  | DownloadComplete : WellFormed DISPID_DOWNLOADCOMPLETE []
  | SetSecureLockIcon (SecureLockIcon : Int) :
      WellFormed DISPID_SETSECURELOCKICON [.I4 SecureLockIcon]
  | ProgressChange (Progress ProgressMax : Int) :
      WellFormed DISPID_PROGRESSCHANGE [.I4 ProgressMax, .I4 Progress]
  | BeforeScriptExecute (pDispWindow : Nat) :
      WellFormed DISPID_BEFORESCRIPTEXECUTE [.DISPATCH pDispWindow]
  | OnQuit : WellFormed DISPID_QUIT []

/-- The relation between the adapter and the active subscriptions that `Connect` and
`Disconnect` maintain when successful `Advise` calls return nonzero cookies: the
adapter holds a connection point and a nonzero cookie exactly when that subscription is
the only active one. -/
def SubscriptionInv (self : MEventSink) (active : List (Nat × Nat)) : Prop :=
  match self.m_pConnectPoint with
  | some point =>
    if self.m_dwCookie ≠ 0 then active = [(point, self.m_dwCookie)] else active = []
  | none => self.m_dwCookie = 0 ∧ active = []

/-- The URL of a download call, `none` for any other call. -/
def Effect.downloadUrl : Effect → Option WString
  | .URLDownloadToFile new_url _ => some new_url
  | _ => none

/-! ## Command state, URL history and startup -/

/-- Constant `CSC_NAVIGATEFORWARD` of `exdisp.h`. -/
def CSC_NAVIGATEFORWARD : Int := 1

/-- Constant `CSC_NAVIGATEBACK` of `exdisp.h`. -/
def CSC_NAVIGATEBACK : Int := 2

/-- The function-local statics `bEnableForward` and `bEnableBack` of
`OnCommandStateChange`, and the enabled state of the `ID_BACK` and `ID_NEXT` buttons. -/
structure CommandState where
  bEnableForward : Bool
  bEnableBack : Bool
  ID_BACK_enabled : Bool
  ID_NEXT_enabled : Bool
  deriving DecidableEq, Repr

/-- The command state at program start: both statics are FALSE; the buttons are as
created. -/
def CommandState.init (ID_BACK_enabled ID_NEXT_enabled : Bool) : CommandState where
  bEnableForward := false
  bEnableBack := false
  ID_BACK_enabled := ID_BACK_enabled
  ID_NEXT_enabled := ID_NEXT_enabled

/-- Function `MEventHandler::OnCommandStateChange`. -/
def OnCommandStateChange (Command : Int) (Enable : Int) (st : CommandState) :
    CommandState :=
  let st :=
    if Command = CSC_NAVIGATEFORWARD then
      { st with bEnableForward := decide (Enable = VARIANT_TRUE) }
    else if Command = CSC_NAVIGATEBACK then
      { st with bEnableBack := decide (Enable = VARIANT_TRUE) }
    else st
  { st with ID_BACK_enabled := st.bEnableBack, ID_NEXT_enabled := st.bEnableForward }

/-- A sequence of CommandStateChange events, each a command and its enable value,
delivered in order. -/
def commandStateChanges (events : List (Int × Int)) (st : CommandState) : CommandState :=
  events.foldl (fun s e => OnCommandStateChange e.1 e.2 s) st

/-- Function `OnAddToComboBox`.  `items` are the strings of the address-bar combo box
and `FindStringExact items url` is the answer of `ComboBox_FindStringExact`; the text
of the address bar is read into a buffer of 256 characters and written back.  The
result holds the settings, the combo-box strings and the navigation state afterwards. -/
def OnAddToComboBox (FindStringExact : List WString → WString → Option Nat)
    (g_settings : Settings) (items : List WString) (app : App) :
    Settings × List WString × App :=
  let szText := app.addrBarText.take 255
  let url := app.s_strURL
  let items :=
    match FindStringExact items url with
    | some iItem => items.eraseIdx iItem
    | none => items
  let m_url_list := g_settings.m_url_list.erase url
  let items := url :: items
  let m_url_list := url :: m_url_list
  ({ g_settings with m_url_list := m_url_list }, items, { app with addrBarText := szText })

/-- The part of `OnCreate` that reads the command line (lines 746-792).  `wargv` is the
array returned by `CommandLineToArgvW` (`none` when it fails), with the program name
first; `lstrcmpiW_eq a b` is `lstrcmpiW(a, b) == 0`.  The result holds the settings
afterwards and the URLs passed to `DoNavigate`, in order; the window placement between
the two navigation sites is left out. -/
def OnCreate.startup (lstrcmpiW_eq : WString → WString → Bool) (g_settings : Settings)
    (wargv : Option (List WString)) : Settings × List WString :=
  let argc := match wargv with
    | some argv => argv.length
    | none => 0
  let r : Settings × List WString :=
    match wargv with
    | some argv =>
      match argv.get? 1 with
      | some arg =>
        if lstrcmpiW_eq arg (L "-kiosk") || lstrcmpiW_eq arg (L "--kiosk") ||
            lstrcmpiW_eq arg (L "/kiosk") then
          ({ g_settings with m_kiosk_mode := true }, [])
        else
          (g_settings, [arg])
      | none => (g_settings, [])
    | none => (g_settings, [])
  if decide (argc ≤ 1) || r.1.m_kiosk_mode then
    (r.1, r.2 ++ [r.1.m_homepage])
  else r

/-! ## File names and shortcuts -/

/-- Function `ConvertStringToFilename`.  The string is a `std::wstring` and may hold NUL
characters; `wcschr` finds the terminator of the reserved set for them. -/
def ConvertStringToFilename (str : WString) : WString :=
  str.map (fun wch => if (wcschr (L "\\/:*?\"<>|") wch).isSome then '_' else wch)

/-- What `OnCreateShortcut` gets from its surroundings: the desktop directory of
`SHGetFolderPath`, the text of `IDS_NONAME`, the dialog `ShowAddLinkDlg` (the edited
title, `none` when cancelled), and the shell functions `PathAppend` and
`PathFileExists`. -/
structure ShortcutEnv where
  desktop : WString
  IDS_NONAME : WString
  ShowAddLinkDlg : WString → Option WString
  PathAppend : WString → WString → WString
  PathFileExists : WString → Bool

/-- The value of `strPath` that iteration `i` of the loop of `OnCreateShortcut`
builds from `szPath`. -/
def OnCreateShortcut.candidate (szPath : WString) (i : Nat) : WString :=
  szPath ++ (if 1 < i then L (" (" ++ toString i ++ ")") else []) ++ L ".url"

/-- The loop `for (INT i = 1; i < 64; ++i)` of `OnCreateShortcut`, from iteration `i`
with `n` iterations left: `strPath` at the end and the number of iterations run. -/
def OnCreateShortcut.search (env : ShortcutEnv) (szPath : WString) :
    Nat → Nat → WString → WString × Nat
  | _, 0, strPath => (strPath, 0)
  | i, n + 1, _ =>
    if !env.PathFileExists (OnCreateShortcut.candidate szPath i) then
      (OnCreateShortcut.candidate szPath i, 1)
    else
      ((OnCreateShortcut.search env szPath (i + 1) n
          (OnCreateShortcut.candidate szPath i)).1,
        (OnCreateShortcut.search env szPath (i + 1) n
          (OnCreateShortcut.candidate szPath i)).2 + 1)

/-- The path that `OnCreateShortcut` passes to the loop: the desktop directory with the
title appended, `none` when the dialog is cancelled. -/
def OnCreateShortcut.szPath (env : ShortcutEnv) (app : App) : Option WString :=
  let file_title :=
    if app.s_strTitle.isEmpty then env.IDS_NONAME
    else ConvertStringToFilename app.s_strTitle
  let file_title := if 64 ≤ file_title.length then file_title.take 64 else file_title
  match env.ShowAddLinkDlg file_title with
  | none => none
  | some file_title =>
    some (env.PathAppend env.desktop (ConvertStringToFilename file_title))

/-- Function `OnCreateShortcut`: the call `CreateInternetShortcut(strPath, url)` it
makes, as the pair of its arguments, or `none` when it makes none. -/
def OnCreateShortcut (env : ShortcutEnv) (app : App) : Option (WString × WString) :=
  match OnCreateShortcut.szPath env app with
  | none => none
  | some szPath =>
    let strPath := (OnCreateShortcut.search env szPath 1 63 []).1
    if !env.PathFileExists strPath then
      let url := app.s_strURL
      let url :=
        if wfind (L "view-source:") url = some 0 then url.drop (L "view-source:").length
        else url
      some (strPath, url)
    else none

/-- The inverse pass of the escaping in the words of the specification: from left to
right, `&lt;` becomes `<`, `&gt;` becomes `>`, `&amp;` becomes `&`, every other
character is copied. -/
def unescape : WString → WString
  | '&' :: 'l' :: 't' :: ';' :: rest => '<' :: unescape rest
  | '&' :: 'g' :: 't' :: ';' :: rest => '>' :: unescape rest
  | '&' :: 'a' :: 'm' :: 'p' :: ';' :: rest => '&' :: unescape rest
  | c :: rest => c :: unescape rest
  | [] => []

/-- The text between the fixed prefix and the fixed suffix of a page built by
`text2html`. -/
def stripShell (page : WString) : WString :=
  (page.drop (L "<html><body><pre>").length).take
    (page.length - (L "<html><body><pre>").length - (L "</pre></body></html>").length)

/-! ## Concrete inputs used by the examples -/

/-- A shell in which no string names a file, a UNC path or a network path, and
`PathIsURL` accepts the strings that begin with a scheme of two or more characters
followed by a colon. -/
def shellNoFiles : ShellApi where
  PathFileExists := fun _ => false
  UrlIsFileUrl := fun _ => false
  PathIsUNC := fun _ => false
  PathIsNetworkPath := fun _ => false
  PathIsURL := fun url => match wcschr url ':' with
    | some n => decide (2 ≤ n)
    | none => false
  UrlIsAppliable := fun _ => false

/-- The shell `shellNoFiles`, except that `about:blank` names an existing file (the
stream `blank` of a file `about` in the current directory). -/
def shellAboutBlankExists : ShellApi :=
  { shellNoFiles with PathFileExists := fun url => decide (url = L "about:blank") }

/-- A configuration with one blacklist entry, local file access off, kiosk mode off. -/
def settingsBlacklist : Settings where
  m_black_list := [L "example-bad.test"]
  m_local_file_access := false
  m_kiosk_mode := false
  m_dont_popup := false
  m_dont_r_click := false
  m_homepage := L "about:blank"
  m_url_list := []

/-- A hosted control whose application handle is 7 and which has a document. -/
def hostReady : Host where
  get_Application := some 7
  get_Document := some 1
  LoadString := fun nID => match nID with
    | .IDS_HITBLACKLIST => L "<html><body>blacklisted</body></html>"
    | .IDS_ACCESS_FAIL => L "<html><body>access failed</body></html>"
    | .IDS_STOP => L "Stop"
    | .IDS_REFRESH => L "Refresh"

/-- The navigation state at window creation. -/
def appInit : App where
  s_strURL := []
  s_strTitle := []
  s_bLoadingPage := false
  addrBarText := []
  effects := []

/-- A download environment in which no temporary file can be created. -/
def envNoTemp : DownloadEnv where
  DoGetTemporaryFile := none
  URLDownloadToFile := fun _ => false
  polls := []
  fopen := none
  MultiByteToWideChar := fun _ _ => []

/-- An adapter with a bound listener. -/
def sinkBound : MEventSink where
  m_cRefs := 1
  m_pListener := some 1
  m_dwCookie := 1
  m_pConnectPoint := some 1

/-- An adapter as constructed: no listener bound. -/
def sinkFresh : MEventSink where
  m_cRefs := 1
  m_pListener := none
  m_dwCookie := 0
  m_pConnectPoint := none

/-- A download environment in which a temporary file is created, every download
succeeds at once and completes at the first poll, and the file holds `<html>`. -/
def envDownloadOk : DownloadEnv where
  DoGetTemporaryFile := some (L "sbt1.tmp")
  URLDownloadToFile := fun _ => true
  polls := [⟨true, false, false⟩]
  fopen := some (A "<html>")
  MultiByteToWideChar := fun _ bytes => bytes.map Char.ofNat

/-- A download environment like `envDownloadOk` in which only the download of
`https://example.com` can be started. -/
def envHttpsOnly : DownloadEnv :=
  { envDownloadOk with URLDownloadToFile := fun u => decide (u = L "https://example.com") }

/-- A comparison that ignores the case of ASCII letters, standing for
`lstrcmpiW(a, b) == 0` in the examples. -/
def asciiEqualsIgnoreCase (a b : WString) : Bool :=
  a.map Char.toLower == b.map Char.toLower

/-- A configuration like `settingsBlacklist` with the stored kiosk-mode flag on. -/
def settingsKiosk : Settings :=
  { settingsBlacklist with m_kiosk_mode := true }

/-- Surroundings of `OnCreateShortcut` in which the desktop is `C:\Desk`, the dialog is
confirmed with the proposed title, and only `C:\Desk\noname.url` exists. -/
def shortcutEnvOneExists : ShortcutEnv where
  desktop := L "C:\\Desk"
  IDS_NONAME := L "noname"
  ShowAddLinkDlg := fun file_title => some file_title
  PathAppend := fun pszPath pszMore => pszPath ++ L "\\" ++ pszMore
  PathFileExists := fun path => decide (path = L "C:\\Desk\\noname.url")

/-! # Theorems -/
/-! ## String lemmas -/

theorem wfind_isSome_iff {α : Type} [DecidableEq α] (item s : List α) :
    (wfind item s).isSome = true ↔ item <:+: s := by
  induction s with
  | nil =>
    simp only [wfind]
    split <;> rename_i h
    · simp only [List.isPrefixOf_iff_prefix] at h
      simpa using List.IsPrefix.isInfix h
    · simp only [List.isPrefixOf_iff_prefix] at h
      simp only [Option.isSome_none, Bool.false_eq_true, false_iff]
      intro hi
      exact h (by rw [List.infix_nil] at hi; rw [hi])
  | cons c t ih =>
    simp only [wfind]
    split <;> rename_i h
    · simp only [List.isPrefixOf_iff_prefix] at h
      simpa using List.IsPrefix.isInfix h
    · simp only [List.isPrefixOf_iff_prefix] at h
      rw [Option.isSome_map', ih, List.infix_cons_iff]
      simp [h]

theorem wfind_eq_zero_iff {α : Type} [DecidableEq α] (item s : List α) :
    wfind item s = some 0 ↔ item <+: s := by
  cases s with
  | nil =>
    simp only [wfind]
    split <;> rename_i h <;> simp only [List.isPrefixOf_iff_prefix] at h <;> simp [h]
  | cons c t =>
    simp only [wfind]
    split <;> rename_i h <;> simp only [List.isPrefixOf_iff_prefix] at h <;> simp [h]

theorem wcschr_eq_none_iff (s : WString) (ch : Char) (hch : ch ≠ '\x00') :
    wcschr s ch = none ↔ ch ∉ s := by
  induction s with
  | nil => simp [wcschr, hch]
  | cons c t ih =>
    simp only [wcschr]
    split <;> rename_i h
    · simp [h]
    · rw [Option.map_eq_none', ih]
      simp [Ne.symm h]

/-- The suffix tests of `IsAccessibleURL`: searching `item` in the last `item.length`
characters succeeds exactly when the string ends with `item`. -/
theorem suffix_test_iff (item url : WString) :
    (decide (item.length ≤ url.length) &&
      (wcsstr (url.drop (url.length - item.length)) item).isSome) = true ↔
      item <:+ url := by
  simp only [Bool.and_eq_true, decide_eq_true_eq, wcsstr, wfind_isSome_iff]
  constructor
  · rintro ⟨hlen, hin⟩
    have hl : (url.drop (url.length - item.length)).length = item.length := by
      simp only [List.length_drop]; omega
    have := hin.eq_of_length hl.symm
    rw [List.suffix_iff_eq_drop]
    exact this
  · intro hs
    have hlen := hs.length_le
    refine ⟨hlen, ?_⟩
    have := List.suffix_iff_eq_drop.mp hs
    rw [← this]


/-! ## Navigation policy -/

/-- C1: if the URL contains a blacklist entry then `UrlInBlackList` returns TRUE and a
top-frame `OnBeforeNavigate2` takes the blacklist branch, whatever the shell answers and
whatever the local-file-access and kiosk settings are: the attempted URL is recorded, the
`IDS_HITBLACKLIST` page is written, the event is cancelled and a document-complete
refresh is posted; the loading flag and the address bar are not touched. -/
theorem C1_blacklist_precedence (g_settings : Settings) (url : WString)
    (h : ∃ item ∈ g_settings.m_black_list, item <:+: url) :
    UrlInBlackList g_settings url = true ∧
    ∀ (api : ShellApi) (host : Host) (pDispatch : Nat) (Cancel : Int) (app : App),
      host.get_Application = some pDispatch →
      OnBeforeNavigate2 api g_settings host pDispatch url Cancel app =
        (PostMessage .ID_DOCUMENT_COMPLETE
          (SetInternalPageContents host (host.LoadString .IDS_HITBLACKLIST) true
            { app with s_strURL := url }), VARIANT_TRUE) := by
  have hbl : UrlInBlackList g_settings url = true := by
    obtain ⟨item, hmem, hin⟩ := h
    simp only [UrlInBlackList, List.any_eq_true]
    exact ⟨item, hmem, (wfind_isSome_iff item url).mpr hin⟩
  refine ⟨hbl, ?_⟩
  intro api host pDispatch Cancel app hApp
  simp [OnBeforeNavigate2, hApp, hbl]

theorem C1_blacklist_precedence_witness :
    UrlInBlackList settingsBlacklist (L "http://example-bad.test/page") = true ∧
    (OnBeforeNavigate2 shellNoFiles settingsBlacklist hostReady 7
      (L "http://example-bad.test/page") VARIANT_FALSE appInit).2 = VARIANT_TRUE := by
  have h := C1_blacklist_precedence settingsBlacklist (L "http://example-bad.test/page")
    ⟨L "example-bad.test", by decide, L "http://", L "/page", by decide⟩
  exact ⟨h.1, by rw [h.2 shellNoFiles hostReady 7 VARIANT_FALSE appInit rfl]⟩

/-- C3: for a local-file-like URL (`PathFileExists`, `UrlIsFileUrl`, `PathIsUNC` or
`PathIsNetworkPath` holds), `IsAccessibleURL` returns TRUE exactly when local file
access is enabled and kiosk mode is off, whatever its scheme, prefix or suffix. -/
theorem C3_local_file_like (api : ShellApi) (g_settings : Settings) (url : WString)
    (hlocal : api.localFileLike url = true) :
    (IsAccessibleURL api g_settings url = true ↔
      g_settings.m_local_file_access = true ∧ g_settings.m_kiosk_mode = false) := by
  simp only [ShellApi.localFileLike] at hlocal
  simp [IsAccessibleURL, hlocal]

theorem C3_local_file_like_witness :
    (IsAccessibleURL shellAboutBlankExists settingsBlacklist (L "about:blank") = true ↔
      settingsBlacklist.m_local_file_access = true ∧
        settingsBlacklist.m_kiosk_mode = false) :=
  C3_local_file_like shellAboutBlankExists settingsBlacklist (L "about:blank") (by decide)

/-- C4: `IsAccessibleProtocol p` is TRUE exactly for `p` in http, https, view-source,
about, and for `p = file` when local file access is enabled and kiosk mode is off; and
for a URL that is not local-file-like and has a first `:` at offset `n`,
`IsAccessibleURL` returns FALSE whenever the scheme `url.take n` is none of these,
whatever the prefix and suffix of the URL and whatever the shell says about it. -/
theorem C4_explicit_scheme (api : ShellApi) (g_settings : Settings) (url : WString)
    (n : Nat) (hlocal : api.localFileLike url = false)
    (hcolon : wcschr url ':' = some n)
    (hscheme : url.take n ∉ [L "http", L "https", L "view-source", L "about"])
    (hfile : ¬ (url.take n = L "file" ∧ g_settings.m_local_file_access = true ∧
      g_settings.m_kiosk_mode = false)) :
    IsAccessibleURL api g_settings url = false ∧
    ∀ p : WString, IsAccessibleProtocol g_settings p = true ↔
      (p ∈ [L "http", L "https", L "view-source", L "about"] ∨
        (p = L "file" ∧ g_settings.m_local_file_access = true ∧
          g_settings.m_kiosk_mode = false)) := by
  have hiff : ∀ p : WString, IsAccessibleProtocol g_settings p = true ↔
      (p ∈ [L "http", L "https", L "view-source", L "about"] ∨
        (p = L "file" ∧ g_settings.m_local_file_access = true ∧
          g_settings.m_kiosk_mode = false)) := by
    intro p
    simp only [IsAccessibleProtocol, List.mem_cons, List.mem_singleton, List.not_mem_nil,
      or_false]
    by_cases h1 : p = L "http" ∨ p = L "https" ∨ p = L "view-source" ∨ p = L "about"
    · rw [if_pos h1]; simp only [true_iff]; left; tauto
    · rw [if_neg h1]
      cases g_settings.m_local_file_access <;> cases g_settings.m_kiosk_mode <;>
        by_cases h2 : p = L "file" <;> simp [h2] <;> tauto
  refine ⟨?_, hiff⟩
  have hproto : IsAccessibleProtocol g_settings (url.take n) = false := by
    rw [Bool.eq_false_iff]
    intro h
    rcases (hiff _).mp h with h | h
    · exact hscheme h
    · exact hfile h
  simp only [ShellApi.localFileLike] at hlocal
  simp [IsAccessibleURL, hlocal, hcolon, hproto]

theorem C4_explicit_scheme_witness :
    IsAccessibleURL shellNoFiles settingsBlacklist (L "www.example.com:8080") = false ∧
    ∀ p : WString, IsAccessibleProtocol settingsBlacklist p = true ↔
      (p ∈ [L "http", L "https", L "view-source", L "about"] ∨
        (p = L "file" ∧ settingsBlacklist.m_local_file_access = true ∧
          settingsBlacklist.m_kiosk_mode = false)) :=
  C4_explicit_scheme shellNoFiles settingsBlacklist (L "www.example.com:8080") 15
    (by decide) (by decide) (by decide) (by decide)

/-- C5: for a URL that is not local-file-like and contains no `:`, `IsAccessibleURL`
returns TRUE exactly when `PathIsURL` or `UrlIs(URLIS_APPLIABLE)` accepts it, or it
begins with `www.` or `ftp.`, or it ends with `.com`, `.com/`, `.co.jp` or `.co.jp/`
(a suffix of the whole string, so a shorter string never matches). -/
theorem C5_no_scheme (api : ShellApi) (g_settings : Settings) (url : WString)
    (hlocal : api.localFileLike url = false) (hcolon : ':' ∉ url) :
    (IsAccessibleURL api g_settings url = true ↔
      (api.PathIsURL url = true ∨ api.UrlIsAppliable url = true ∨
        L "www." <+: url ∨ L "ftp." <+: url ∨
        L ".com" <:+ url ∨ L ".com/" <:+ url ∨
        L ".co.jp" <:+ url ∨ L ".co.jp/" <:+ url)) := by
  have h4 := suffix_test_iff (L ".com") url
  have h5 := suffix_test_iff (L ".com/") url
  have h6 := suffix_test_iff (L ".co.jp") url
  have h7 := suffix_test_iff (L ".co.jp/") url
  have l4 : (L ".com").length = 4 := rfl
  have l5 : (L ".com/").length = 5 := rfl
  have l6 : (L ".co.jp").length = 6 := rfl
  have l7 : (L ".co.jp/").length = 7 := rfl
  rw [l4] at h4; rw [l5] at h5; rw [l6] at h6; rw [l7] at h7
  have hw := wfind_eq_zero_iff (L "www.") url
  have hf := wfind_eq_zero_iff (L "ftp.") url
  simp only [ShellApi.localFileLike] at hlocal
  have hnone := (wcschr_eq_none_iff url ':' (by decide)).mpr hcolon
  simp only [IsAccessibleURL, hlocal, hnone, IsAccessibleURL.heuristics, wcsstr] at *
  rw [← hw, ← hf, ← h4, ← h5, ← h6, ← h7]
  by_cases a1 : api.PathIsURL url = true
  · simp [a1]
  by_cases a2 : api.UrlIsAppliable url = true
  · simp [a2]
  by_cases a3 : wfind (L "www.") url = some 0
  · simp [a3]
  by_cases a4 : wfind (L "ftp.") url = some 0
  · simp [a4]
  by_cases b4 : (decide (4 ≤ url.length) &&
      (wfind (L ".com") (List.drop (url.length - 4) url)).isSome) = true
  · simp only [b4]; simp
  by_cases b5 : (decide (5 ≤ url.length) &&
      (wfind (L ".com/") (List.drop (url.length - 5) url)).isSome) = true
  · simp only [b5]; simp
  by_cases b6 : (decide (6 ≤ url.length) &&
      (wfind (L ".co.jp") (List.drop (url.length - 6) url)).isSome) = true
  · simp only [b6]; simp
  by_cases b7 : (decide (7 ≤ url.length) &&
      (wfind (L ".co.jp/") (List.drop (url.length - 7) url)).isSome) = true
  · simp only [b7]; simp
  simp only [a1, a2, a3, a4, b4, b5, b6, b7]
  simp

theorem C5_no_scheme_witness :
    (IsAccessibleURL shellNoFiles settingsBlacklist (L "x.com.evil") = true ↔
      (shellNoFiles.PathIsURL (L "x.com.evil") = true ∨
        shellNoFiles.UrlIsAppliable (L "x.com.evil") = true ∨
        L "www." <+: L "x.com.evil" ∨ L "ftp." <+: L "x.com.evil" ∨
        L ".com" <:+ L "x.com.evil" ∨ L ".com/" <:+ L "x.com.evil" ∨
        L ".co.jp" <:+ L "x.com.evil" ∨ L ".co.jp/" <:+ L "x.com.evil")) :=
  C5_no_scheme shellNoFiles settingsBlacklist (L "x.com.evil") (by decide) (by decide)

/-! ## Navigation controller -/

theorem SetInternalPageContents_frame (host : Host) (html : WString) (is_html : Bool)
    (app : App) :
    (SetInternalPageContents host html is_html app).s_strURL = app.s_strURL ∧
    (SetInternalPageContents host html is_html app).s_strTitle = app.s_strTitle ∧
    (SetInternalPageContents host html is_html app).s_bLoadingPage = app.s_bLoadingPage ∧
    (SetInternalPageContents host html is_html app).addrBarText = app.addrBarText ∧
    ∃ written, (SetInternalPageContents host html is_html app).effects =
      app.effects ++ written := by
  unfold SetInternalPageContents
  cases host.get_Document with
  | none => exact ⟨rfl, rfl, rfl, rfl, [], by simp⟩
  | some d => exact ⟨rfl, rfl, rfl, rfl, _, rfl⟩

/-- The blocked branches of a top-frame `OnBeforeNavigate2`. -/
theorem OnBeforeNavigate2_blocked (api : ShellApi) (g_settings : Settings) (host : Host)
    (pDispatch : Nat) (url : WString) (Cancel : Int) (app : App)
    (htop : host.get_Application = some pDispatch)
    (hblocked : UrlInBlackList g_settings url = true ∨
      IsAccessibleURL api g_settings url = false) :
    ∃ nID, OnBeforeNavigate2 api g_settings host pDispatch url Cancel app =
      (PostMessage .ID_DOCUMENT_COMPLETE
        (SetInternalPageContents host (host.LoadString nID) true
          { app with s_strURL := url }), VARIANT_TRUE) := by
  cases hbl : UrlInBlackList g_settings url with
  | true => exact ⟨.IDS_HITBLACKLIST, by simp [OnBeforeNavigate2, htop, hbl]⟩
  | false =>
    have hacc : IsAccessibleURL api g_settings url = false := by
      rcases hblocked with h | h
      · rw [hbl] at h; cases h
      · exact h
    exact ⟨.IDS_ACCESS_FAIL, by simp [OnBeforeNavigate2, htop, hbl, hacc]⟩

/-- The allowed branch of a top-frame `OnBeforeNavigate2`. -/
theorem OnBeforeNavigate2_allowed (api : ShellApi) (g_settings : Settings) (host : Host)
    (pDispatch : Nat) (url : WString) (Cancel : Int) (app : App)
    (htop : host.get_Application = some pDispatch)
    (hbl : UrlInBlackList g_settings url = false)
    (hacc : IsAccessibleURL api g_settings url = true) :
    OnBeforeNavigate2 api g_settings host pDispatch url Cancel app =
      ({ app with
          s_bLoadingPage := true
          addrBarText := url
          effects := app.effects ++
            [Effect.SetDlgItemText_STOP_REFRESH .IDS_STOP, Effect.pApp_Release] },
        Cancel) := by
  simp [OnBeforeNavigate2, htop, hbl, hacc, DoUpdateURL]

/-- C6: for a top-frame BeforeNavigate event delivered with cancel false, the handler
leaves cancel true exactly when the URL is blacklisted or `IsAccessibleURL` is false; in
that case the loading flag and the address bar are as before; otherwise cancel stays
false and the loading flag becomes TRUE. -/
theorem C6_cancel_iff_blocked (api : ShellApi) (g_settings : Settings) (host : Host)
    (pDispatch : Nat) (url : WString) (app : App)
    (htop : host.get_Application = some pDispatch) :
    ((OnBeforeNavigate2 api g_settings host pDispatch url VARIANT_FALSE app).2 =
        VARIANT_TRUE ↔
      (UrlInBlackList g_settings url = true ∨
        IsAccessibleURL api g_settings url = false)) ∧
    ((UrlInBlackList g_settings url = true ∨
        IsAccessibleURL api g_settings url = false) →
      (OnBeforeNavigate2 api g_settings host pDispatch url VARIANT_FALSE app).1.s_bLoadingPage
          = app.s_bLoadingPage ∧
      (OnBeforeNavigate2 api g_settings host pDispatch url VARIANT_FALSE app).1.addrBarText
          = app.addrBarText) ∧
    (¬ (UrlInBlackList g_settings url = true ∨
        IsAccessibleURL api g_settings url = false) →
      (OnBeforeNavigate2 api g_settings host pDispatch url VARIANT_FALSE app).2 =
          VARIANT_FALSE ∧
      (OnBeforeNavigate2 api g_settings host pDispatch url VARIANT_FALSE app).1.s_bLoadingPage
          = true) := by
  by_cases hblocked : UrlInBlackList g_settings url = true ∨
      IsAccessibleURL api g_settings url = false
  · obtain ⟨nID, hr⟩ := OnBeforeNavigate2_blocked api g_settings host pDispatch url
      VARIANT_FALSE app htop hblocked
    obtain ⟨_, _, hload, haddr, _⟩ := SetInternalPageContents_frame host
      (host.LoadString nID) true { app with s_strURL := url }
    rw [hr]
    refine ⟨⟨fun _ => hblocked, fun _ => rfl⟩, fun _ => ?_, fun h => absurd hblocked h⟩
    simp only [PostMessage]
    exact ⟨hload, haddr⟩
  · have hbl : UrlInBlackList g_settings url = false := by
      cases h : UrlInBlackList g_settings url
      · rfl
      · exact absurd (Or.inl h) hblocked
    have hacc : IsAccessibleURL api g_settings url = true := by
      cases h : IsAccessibleURL api g_settings url
      · exact absurd (Or.inr h) hblocked
      · rfl
    rw [OnBeforeNavigate2_allowed api g_settings host pDispatch url VARIANT_FALSE app
      htop hbl hacc]
    refine ⟨⟨fun h => ?_, fun h => absurd h hblocked⟩, fun h => absurd h hblocked,
      fun _ => ⟨rfl, rfl⟩⟩
    have hne : VARIANT_FALSE ≠ VARIANT_TRUE := by decide
    exact absurd h hne

theorem C6_cancel_iff_blocked_witness :
    (OnBeforeNavigate2 shellNoFiles settingsBlacklist hostReady 7
        (L "http://example-bad.test/page") VARIANT_FALSE appInit).2 = VARIANT_TRUE :=
  (C6_cancel_iff_blocked shellNoFiles settingsBlacklist hostReady 7
    (L "http://example-bad.test/page") appInit rfl).1.mpr (Or.inl (by decide))

/-- C7 as stated fails: `http://example-bad.test/page` is blacklisted, yet `DoNavigate`
sends `Navigate` for it to the hosted control; and for
`view-source:http://example-bad.test/page` it starts the download of the blacklisted
URL.  Both hold in a debug and in a release build. -/
theorem C7_counterexample :
    UrlInBlackList settingsBlacklist (L "http://example-bad.test/page") = true ∧
    DoNavigate .debug hostReady envNoTemp (L "http://example-bad.test/page") appInit =
      .returned
        { appInit with effects := [Effect.Navigate (L "http://example-bad.test/page")] } ∧
    DoNavigate .release hostReady envNoTemp (L "http://example-bad.test/page") appInit =
      .returned
        { appInit with effects := [Effect.Navigate (L "http://example-bad.test/page")] } ∧
    UrlInBlackList settingsBlacklist (L "view-source:http://example-bad.test/page") = true ∧
    (DoNavigate .debug hostReady envDownloadOk (L "view-source:http://example-bad.test/page")
      appInit).app?.map (fun a => a.effects.head?) =
      some (some (Effect.URLDownloadToFile (L "http://example-bad.test/page")
        (L "sbt1.tmp"))) ∧
    (DoNavigate .release hostReady envDownloadOk
      (L "view-source:http://example-bad.test/page") appInit).app?.map
        (fun a => a.effects.head?) =
      some (some (Effect.URLDownloadToFile (L "http://example-bad.test/page")
        (L "sbt1.tmp"))) := by
  decide

/-- C7 (amended): for every request whose trimmed URL does not begin with
`view-source:`, blocked by the policy or not, `DoNavigate` (in a debug and in a release
build alike) starts no download and sends exactly one `Navigate` command, carrying the
URL as given, changing nothing else; the policy is applied afterwards, by the top-frame
BeforeNavigate handler, which cancels a blocked URL. -/
theorem C7_donavigate_sends_navigate (build : Build) (host : Host) (env : DownloadEnv)
    (url : WString) (app : App)
    (hvs : ¬ L "view-source:" <+: StrTrimW url (L " \t\n\r\x0c\x0b")) :
    DoNavigate build host env url app =
      .returned { app with effects := app.effects ++ [Effect.Navigate url] } ∧
    ∀ (api : ShellApi) (g_settings : Settings) (pDispatch : Nat) (Cancel : Int)
      (app1 : App),
      host.get_Application = some pDispatch →
      (UrlInBlackList g_settings url = true ∨
        IsAccessibleURL api g_settings url = false) →
      (OnBeforeNavigate2 api g_settings host pDispatch url Cancel app1).2 =
        VARIANT_TRUE := by
  constructor
  · have h0 : ¬ wfind (L "view-source:") (StrTrimW url (L " \t\n\r\x0c\x0b")) = some 0 :=
      fun h => hvs ((wfind_eq_zero_iff _ _).mp h)
    simp only [DoNavigate]
    rw [if_neg h0]
  · intro api g_settings pDispatch Cancel app1 htop hblocked
    obtain ⟨nID, hr⟩ := OnBeforeNavigate2_blocked api g_settings host pDispatch url
      Cancel app1 htop hblocked
    rw [hr]

theorem C7_donavigate_sends_navigate_witness :
    DoNavigate .debug hostReady envNoTemp (L " ftp://internal.local/x ") appInit =
      .returned { appInit with
        effects := appInit.effects ++ [Effect.Navigate (L " ftp://internal.local/x ")] } :=
  (C7_donavigate_sends_navigate .debug hostReady envNoTemp (L " ftp://internal.local/x ")
    appInit (by decide)).1

/-- C8: for a URL blocked in a top-frame BeforeNavigate, the handler sets `s_strURL` to
the attempted URL and its last action is to post the document-complete refresh; when
`OnDocumentComplete` then runs, the address-bar text is the attempted URL. -/
theorem C8_blocked_url_shown (api : ShellApi) (g_settings : Settings) (host : Host)
    (pDispatch : Nat) (url : WString) (Cancel : Int) (app : App)
    (htop : host.get_Application = some pDispatch)
    (hblocked : UrlInBlackList g_settings url = true ∨
      IsAccessibleURL api g_settings url = false) :
    (OnBeforeNavigate2 api g_settings host pDispatch url Cancel app).1.s_strURL = url ∧
    (∃ written,
      (OnBeforeNavigate2 api g_settings host pDispatch url Cancel app).1.effects =
        app.effects ++ written ++ [Effect.PostMessage .ID_DOCUMENT_COMPLETE]) ∧
    (OnDocumentComplete
      (OnBeforeNavigate2 api g_settings host pDispatch url Cancel app).1).addrBarText =
        url := by
  obtain ⟨nID, hr⟩ := OnBeforeNavigate2_blocked api g_settings host pDispatch url
    Cancel app htop hblocked
  obtain ⟨hurl, _, _, _, written, heff⟩ := SetInternalPageContents_frame host
    (host.LoadString nID) true { app with s_strURL := url }
  rw [hr]
  simp only [PostMessage, OnDocumentComplete]
  exact ⟨hurl, ⟨written, by rw [heff]⟩, hurl⟩

theorem C8_blocked_url_shown_witness :
    (OnDocumentComplete
      (OnBeforeNavigate2 shellNoFiles settingsBlacklist hostReady 7
        (L "ftp://internal.local/x") VARIANT_FALSE appInit).1).addrBarText =
      L "ftp://internal.local/x" :=
  (C8_blocked_url_shown shellNoFiles settingsBlacklist hostReady 7
    (L "ftp://internal.local/x") VARIANT_FALSE appInit rfl (Or.inr (by decide))).2.2

/-! ## Event sink -/

theorem runAsserts_release (rgvarg : List VARIANT) (asserts : List Check) :
    runAsserts .release rgvarg asserts = none := by
  cases asserts <;> rfl

theorem Invoke_case_release (rgvarg : List VARIANT) (asserts : List Check)
    (call : Option ListenerCall) :
    Invoke.case .release rgvarg asserts call = .undefined ∨
    ∃ c, Invoke.case .release rgvarg asserts call = .returned S_OK [.call c] := by
  unfold Invoke.case
  rw [runAsserts_release]
  cases call with
  | none => exact Or.inl rfl
  | some c => exact Or.inr ⟨c, rfl⟩

/-- For a recognised identifier and a bound listener, `MEventSink::Invoke` runs one
`case` of its `switch`. -/
theorem Invoke_handled_case (build : Build) (self : MEventSink) (dispIdMember : Int)
    (rgvarg : List VARIANT) (hbound : self.m_pListener ≠ none)
    (hid : dispIdMember ∈ handledDispIds) :
    ∃ asserts call, (MEventSink.Invoke build self dispIdMember rgvarg).outcome =
      Invoke.case build rgvarg asserts call := by
  obtain ⟨refs, listener, cookie, point⟩ := self
  cases listener with
  | none => exact absurd rfl hbound
  | some l =>
    simp only [handledDispIds, List.mem_cons, List.mem_singleton, List.not_mem_nil,
      or_false] at hid
    rcases hid with h | h | h | h | h | h | h | h | h | h | h | h | h | h | h <;>
      subst h <;>
      first
        | exact ⟨_, _, rfl⟩
        | exact ⟨[], some .DownloadBegin, rfl⟩
        | exact ⟨[], some .DownloadComplete, rfl⟩
        | exact ⟨[.cArgs 0], some .OnQuit, rfl⟩

/-- C9 as stated fails: in a release build, a TitleChange notification whose only slot
is tagged `VT_I4` instead of `VT_BSTR` is not rejected: `TitleTextChange` is invoked
with the value read from that slot and `S_OK` is returned. -/
theorem C9_counterexample :
    (VARIANT.I4 5).vt ≠ VT_BSTR ∧
    MEventSink.Invoke .release sinkBound DISPID_TITLECHANGE [.I4 5] =
      ⟨sinkBound, .returned S_OK [.call (.TitleTextChange (.I4 5))]⟩ := by
  decide

/-- C9 (amended): in a release build `MEventSink::Invoke` does not validate the
argument array.  For every recognised identifier with a bound listener and every
argument array, either the run is undefined, which happens only when the array has
fewer slots than the case passes on or a slot read through `pvarVal` holds none; or it
returns `S_OK` after invoking exactly the listener method of that identifier, whose
parameters, first to last, are the values of the slots `paramCount - 1` down to `0`,
whatever their type tags.  No error code is ever returned.  In particular, an array of
seven or more slots of any types is dispatched for every identifier whose case does not
read through `pvarVal`. -/
theorem C9_release_never_rejects (self : MEventSink) (dispIdMember : Int)
    (rgvarg : List VARIANT) (hbound : self.m_pListener ≠ none)
    (hid : dispIdMember ∈ handledDispIds) :
    (((MEventSink.Invoke .release self dispIdMember rgvarg).outcome = .undefined ∧
        (rgvarg.length < paramCount dispIdMember ∨
          ∃ k, (dispIdMember, k) ∈ derefSlots ∧ pvarVal rgvarg k = none)) ∨
      ∃ c, (MEventSink.Invoke .release self dispIdMember rgvarg).outcome =
          .returned S_OK [.call c] ∧
        c.dispId = dispIdMember ∧
        c.args.map some =
          (List.range (paramCount dispIdMember)).reverse.map
            (slotValue dispIdMember rgvarg)) ∧
    (7 ≤ rgvarg.length →
      dispIdMember ∉ [DISPID_NAVIGATECOMPLETE2, DISPID_DOCUMENTCOMPLETE,
        DISPID_NAVIGATEERROR] →
      ∃ c, (MEventSink.Invoke .release self dispIdMember rgvarg).outcome =
        .returned S_OK [.call c]) := by
  obtain ⟨refs, listener, cookie, point⟩ := self
  cases listener with
  | none => exact absurd rfl hbound
  | some l =>
    simp only [handledDispIds, List.mem_cons, List.mem_singleton, List.not_mem_nil,
      or_false] at hid
    constructor
    · rcases hid with h | h | h | h | h | h | h | h | h | h | h | h | h | h | h <;>
        subst h <;>
        rcases rgvarg with _ | ⟨a0, _ | ⟨a1, _ | ⟨a2, _ | ⟨a3, _ | ⟨a4, _ | ⟨a5, _ |
          ⟨a6, rest⟩⟩⟩⟩⟩⟩⟩ <;>
        first
          | exact Or.inl ⟨rfl, Or.inl (by
              simp only [List.length_cons, List.length_nil]; decide)⟩
          | exact Or.inr ⟨_, rfl, rfl, rfl⟩
          | exact Or.inr ⟨.DownloadBegin, rfl, rfl, rfl⟩
          | exact Or.inr ⟨.DownloadComplete, rfl, rfl, rfl⟩
          | exact Or.inr ⟨.OnQuit, rfl, rfl, rfl⟩
          | (cases a0 <;>
              first
                | exact Or.inr ⟨_, rfl, rfl, rfl⟩
                | exact Or.inl ⟨rfl, Or.inr ⟨0, by decide, rfl⟩⟩)
          | (cases a1 <;>
              first
                | exact Or.inr ⟨_, rfl, rfl, rfl⟩
                | exact Or.inl ⟨rfl, Or.inr ⟨1, by decide, rfl⟩⟩)
    · intro hlen hderef
      rcases rgvarg with _ | ⟨a0, _ | ⟨a1, _ | ⟨a2, _ | ⟨a3, _ | ⟨a4, _ | ⟨a5, _ |
        ⟨a6, rest⟩⟩⟩⟩⟩⟩⟩ <;>
        simp only [List.length_nil, List.length_cons] at hlen <;>
        first
          | omega
          | skip
      rcases hid with h | h | h | h | h | h | h | h | h | h | h | h | h | h | h <;>
        subst h <;>
        first
          | exact ⟨_, rfl⟩
          | exact absurd (by decide) hderef

theorem C9_release_never_rejects_witness :
    ∃ c, (MEventSink.Invoke .release sinkBound DISPID_COMMANDSTATECHANGE
      [.BSTR (L "x"), .EMPTY, .EMPTY, .EMPTY, .EMPTY, .EMPTY, .EMPTY]).outcome =
        .returned S_OK [.call c] :=
  (C9_release_never_rejects sinkBound DISPID_COMMANDSTATECHANGE
    [.BSTR (L "x"), .EMPTY, .EMPTY, .EMPTY, .EMPTY, .EMPTY, .EMPTY]
    (by decide) (by decide)).2 (by decide) (by decide)

/-- C10: with no listener bound `MEventSink::Invoke` returns `DISP_E_MEMBERNOTFOUND` for
every identifier and argument array, in both builds, calling nothing and reading no
argument; with a listener bound and an identifier that is none of the fifteen handled
ones it returns `DISP_E_MEMBERNOTFOUND`, invokes no listener method (it only prints the
identifier) and leaves the adapter as it was. -/
theorem C10_invoke_rejects (build : Build) (self : MEventSink) (dispIdMember : Int)
    (rgvarg : List VARIANT) :
    (self.m_pListener = none →
      MEventSink.Invoke build self dispIdMember rgvarg =
        ⟨self, .returned DISP_E_MEMBERNOTFOUND []⟩) ∧
    (self.m_pListener ≠ none → dispIdMember ∉ handledDispIds →
      MEventSink.Invoke build self dispIdMember rgvarg =
        ⟨self, .returned DISP_E_MEMBERNOTFOUND [.printf dispIdMember]⟩) := by
  constructor
  · intro h
    simp [MEventSink.Invoke, h]
  · intro hbound hid
    obtain ⟨l, hl⟩ := Option.ne_none_iff_exists'.mp hbound
    simp only [handledDispIds, List.mem_cons, List.mem_singleton, List.not_mem_nil,
      or_false, not_or] at hid
    obtain ⟨h1, h2, h3, h4, h5, h6, h7, h8, h9, h10, h11, h12, h13, h14, h15⟩ := hid
    simp only [MEventSink.Invoke, hl, if_neg h1, if_neg h2, if_neg h3, if_neg h4,
      if_neg h5, if_neg h6, if_neg h7, if_neg h8, if_neg h9, if_neg h10, if_neg h11,
      if_neg h12, if_neg h13, if_neg h14, if_neg h15]

theorem C10_invoke_rejects_witness :
    MEventSink.Invoke .release sinkFresh DISPID_BEFORENAVIGATE2 [] =
      ⟨sinkFresh, .returned DISP_E_MEMBERNOTFOUND []⟩ ∧
    MEventSink.Invoke .release sinkBound 251 [.EMPTY] =
      ⟨sinkBound, .returned DISP_E_MEMBERNOTFOUND [.printf 251]⟩ :=
  ⟨(C10_invoke_rejects .release sinkFresh DISPID_BEFORENAVIGATE2 []).1 rfl,
   (C10_invoke_rejects .release sinkBound 251 [.EMPTY]).2 (by decide) (by decide)⟩

/-- C11: for every recognised identifier with a bound listener and a well-formed
argument array, in either build, `MEventSink::Invoke` returns `S_OK` after exactly one
listener call, the call is the method of that identifier, its arguments are read from
the slots in reverse order (the first parameter from the last slot, the last parameter
from slot 0), and the adapter is unchanged. -/
theorem C11_wellformed_dispatch (build : Build) (self : MEventSink) (dispIdMember : Int)
    (rgvarg : List VARIANT) (hbound : self.m_pListener ≠ none)
    (hwf : WellFormed dispIdMember rgvarg) :
    ∃ c, MEventSink.Invoke build self dispIdMember rgvarg =
        ⟨self, .returned S_OK [.call c]⟩ ∧
      c.dispId = dispIdMember ∧
      List.Forall₂ readFrom rgvarg.reverse c.args := by
  obtain ⟨refs, listener, cookie, point⟩ := self
  cases listener with
  | none => exact absurd rfl hbound
  | some l =>
    cases hwf <;> cases build <;>
      refine ⟨_, rfl, rfl, ?_⟩ <;>
      simp [ListenerCall.args, readFrom]

theorem C11_wellformed_dispatch_witness :
    ∃ c, MEventSink.Invoke .debug sinkBound DISPID_COMMANDSTATECHANGE
        [.BOOL (-1), .I4 2] = ⟨sinkBound, .returned S_OK [.call c]⟩ ∧
      c.dispId = DISPID_COMMANDSTATECHANGE ∧
      List.Forall₂ readFrom [VARIANT.BOOL (-1), VARIANT.I4 2].reverse c.args :=
  C11_wellformed_dispatch .debug sinkBound DISPID_COMMANDSTATECHANGE
    [.BOOL (-1), .I4 2] (by decide) (.CommandStateChange 2 (-1))

/-! ## Connecting and disconnecting -/

theorem SubscriptionInv_length (self : MEventSink) (active : List (Nat × Nat))
    (h : SubscriptionInv self active) : active.length ≤ 1 := by
  unfold SubscriptionInv at h
  split at h
  · split at h <;> simp [h]
  · simp [h.2]

theorem activeHistory_head_mem (active : List (Nat × Nat)) (trace : List ComCall) :
    active ∈ activeHistory active trace := by
  cases trace <;> simp [activeHistory]

theorem mem_activeHistory_append (t1 t2 : List ComCall) (active x : List (Nat × Nat)) :
    x ∈ activeHistory active (t1 ++ t2) ↔
      x ∈ activeHistory active t1 ∨ x ∈ activeHistory (t1.foldl activeStep active) t2 := by
  induction t1 generalizing active with
  | nil =>
    simp only [List.nil_append, activeHistory, List.mem_singleton, List.foldl_nil]
    constructor
    · exact fun h => Or.inr h
    · rintro (h | h)
      · rw [h]; exact activeHistory_head_mem _ _
      · exact h
  | cons call rest ih =>
    show x ∈ activeHistory active (call :: (rest ++ t2)) ↔ _
    simp only [activeHistory, List.mem_cons, List.foldl_cons, ih, or_assoc]

/-- One call preserves the relation and never has two active subscriptions. -/
theorem SinkOp_run_inv (op : SinkOp) (self : MEventSink) (active : List (Nat × Nat))
    (hinv : SubscriptionInv self active) (hcookie : op.nonzeroCookie = true) :
    (∀ x ∈ activeHistory active (op.run self).2, x.length ≤ 1) ∧
    SubscriptionInv (op.run self).1 ((op.run self).2.foldl activeStep active) := by
  obtain ⟨refs, listener, cookie, point⟩ := self
  unfold SubscriptionInv at hinv
  cases point with
  | none =>
    obtain ⟨hc, ha⟩ := hinv
    simp only at hc
    subst hc ha
    cases op with
    | Disconnect =>
      simp [SinkOp.run, MEventSink.Disconnect, activeHistory, SubscriptionInv]
    | Connect answers pListener =>
      obtain ⟨qi, fcp, adv⟩ := answers
      cases qi <;> cases fcp <;> cases adv <;>
        simp [SinkOp.nonzeroCookie] at hcookie <;>
        simp [SinkOp.run, MEventSink.Connect, MEventSink.Disconnect, activeHistory,
          activeStep, SubscriptionInv, hcookie]
  | some p =>
    simp only at hinv
    by_cases hc : cookie = 0
    · subst hc
      simp only [ne_eq, not_true_eq_false, if_false] at hinv
      subst hinv
      cases op with
      | Disconnect =>
        simp [SinkOp.run, MEventSink.Disconnect, activeHistory, SubscriptionInv]
      | Connect answers pListener =>
        obtain ⟨qi, fcp, adv⟩ := answers
        cases qi <;> cases fcp <;> cases adv <;>
          simp [SinkOp.nonzeroCookie] at hcookie <;>
          simp [SinkOp.run, MEventSink.Connect, MEventSink.Disconnect, activeHistory,
            activeStep, SubscriptionInv, hcookie]
    · rw [if_pos hc] at hinv
      subst hinv
      cases op with
      | Disconnect =>
        simp [SinkOp.run, MEventSink.Disconnect, activeHistory, activeStep,
          SubscriptionInv, hc]
      | Connect answers pListener =>
        obtain ⟨qi, fcp, adv⟩ := answers
        cases qi <;> cases fcp <;> cases adv <;>
          simp [SinkOp.nonzeroCookie] at hcookie <;>
          simp [SinkOp.run, MEventSink.Connect, MEventSink.Disconnect, activeHistory,
            activeStep, SubscriptionInv, hc, hcookie]

/-- Along every sequence of calls the relation keeps at most one subscription active. -/
theorem runOps_active_le_one (ops : List SinkOp) (self : MEventSink)
    (active : List (Nat × Nat)) (hinv : SubscriptionInv self active)
    (hcookie : ∀ op ∈ ops, op.nonzeroCookie = true) :
    ∀ x ∈ activeHistory active (runOps ops self).2, x.length ≤ 1 := by
  induction ops generalizing self active with
  | nil =>
    intro x hx
    simp only [runOps, activeHistory, List.mem_singleton] at hx
    rw [hx]
    exact SubscriptionInv_length self active hinv
  | cons op rest ih =>
    intro x hx
    have hstep := SinkOp_run_inv op self active hinv (hcookie op (List.mem_cons_self _ _))
    simp only [runOps] at hx
    rcases (mem_activeHistory_append _ _ _ _).mp hx with h | h
    · exact hstep.1 x h
    · exact ih (op.run self).1 _ hstep.2
        (fun o ho => hcookie o (List.mem_cons_of_mem _ ho)) x h

/-- C12 as stated fails when a successful `Advise` returns the cookie 0: `Disconnect`
then skips `Unadvise`, so after a second `Connect` two subscriptions are active. -/
theorem C12_counterexample :
    [(1, 0), (1, 5)] ∈ activeHistory []
      (runOps [.Connect ⟨true, some 1, some 0⟩ 1, .Connect ⟨true, some 1, some 5⟩ 1]
        MEventSink.Create).2 := by
  decide

/-- C12 (amended): when every successful `Advise` returns a nonzero cookie, then along
every sequence of `Connect` and `Disconnect` calls on a newly created adapter, each
`Connect` succeeding or failing at `QueryInterface`, `FindConnectionPoint` or `Advise`,
at most one subscription is active before and after every single call made on a
connection point; connect, disconnect, connect leaves exactly one active subscription;
and a second `Connect` calls `Unadvise` for the first subscription before its own
`Advise`. -/
theorem C12_at_most_one_subscription (ops : List SinkOp)
    (hcookie : ∀ op ∈ ops, op.nonzeroCookie = true) :
    (∀ active ∈ activeHistory [] (runOps ops MEventSink.Create).2, active.length ≤ 1) ∧
    (∀ p1 c1 l1 p2 c2 l2 : Nat, c1 ≠ 0 → c2 ≠ 0 →
      (runOps [.Connect ⟨true, some p1, some c1⟩ l1, .Disconnect,
        .Connect ⟨true, some p2, some c2⟩ l2] MEventSink.Create).2.foldl activeStep [] =
          [(p2, c2)] ∧
      (runOps [.Connect ⟨true, some p1, some c1⟩ l1,
        .Connect ⟨true, some p2, some c2⟩ l2] MEventSink.Create).2 =
          [.QueryInterface true, .FindConnectionPoint (some p1), .Advise p1 (some c1),
           .pContainer_Release, .Unadvise p1 c1, .pConnectPoint_Release p1,
           .QueryInterface true, .FindConnectionPoint (some p2), .Advise p2 (some c2),
           .pContainer_Release]) := by
  constructor
  · exact runOps_active_le_one ops MEventSink.Create []
      (by simp [SubscriptionInv, MEventSink.Create]) hcookie
  · intro p1 c1 l1 p2 c2 l2 h1 h2
    simp [runOps, SinkOp.run, MEventSink.Connect, MEventSink.Disconnect,
      MEventSink.Create, activeStep, h1]

theorem C12_at_most_one_subscription_witness :
    (runOps [.Connect ⟨true, some 1, some 7⟩ 3, .Disconnect,
      .Connect ⟨true, some 2, some 9⟩ 4] MEventSink.Create).2.foldl activeStep [] =
        [(2, 9)] :=
  ((C12_at_most_one_subscription
    [.Connect ⟨true, some 1, some 7⟩ 3, .Connect ⟨true, some 1, none⟩ 3,
      .Disconnect, .Connect ⟨true, some 2, some 9⟩ 4] (by decide)).2
    1 7 3 2 9 4 (by decide) (by decide)).1

/-- C13: for every adapter state, a second `Disconnect` right after the first changes
nothing and makes no call, so twice equals once in state and in calls; one `Disconnect`
makes either no call or one `Unadvise` followed by one `Release`; on a newly created
adapter it makes no call. -/
theorem C13_disconnect_idempotent (self : MEventSink) :
    self.Disconnect.1.Disconnect.1 = self.Disconnect.1 ∧
    self.Disconnect.2 ++ self.Disconnect.1.Disconnect.2 = self.Disconnect.2 ∧
    (self.Disconnect.2 = [] ∨
      ∃ point cookie, self.Disconnect.2 =
        [.Unadvise point cookie, .pConnectPoint_Release point]) ∧
    MEventSink.Create.Disconnect = (MEventSink.Create, []) := by
  obtain ⟨refs, listener, cookie, point⟩ := self
  refine ⟨?_, ?_, ?_, rfl⟩
  · cases point with
    | none => simp [MEventSink.Disconnect]
    | some p =>
      by_cases hc : cookie = 0
      · simp [MEventSink.Disconnect, hc]
      · simp [MEventSink.Disconnect, hc]
  · cases point with
    | none => simp [MEventSink.Disconnect]
    | some p =>
      by_cases hc : cookie = 0
      · simp [MEventSink.Disconnect, hc]
      · simp [MEventSink.Disconnect, hc]
  · cases point with
    | none => simp [MEventSink.Disconnect]
    | some p =>
      by_cases hc : cookie = 0
      · simp [MEventSink.Disconnect, hc]
      · simp [MEventSink.Disconnect, hc]

/-! ## Further handlers -/

/-- C14: `OnNewWindow3` sets the cancel flag to `VARIANT_TRUE` whenever `m_dont_popup`
or kiosk mode is on; when both are off the flag is returned as delivered; the target-out
pointer and the navigation state are never modified. -/
theorem C14_new_window (g_settings : Settings) (ppDisp : Nat) (Cancel : Int)
    (dwFlags : Nat) (bstrUrlContext bstrUrl : WString) (app : App) :
    ((g_settings.m_dont_popup = true ∨ g_settings.m_kiosk_mode = true) →
      (OnNewWindow3 g_settings ppDisp Cancel dwFlags bstrUrlContext bstrUrl app).2.2 =
        VARIANT_TRUE) ∧
    (g_settings.m_dont_popup = false → g_settings.m_kiosk_mode = false →
      (OnNewWindow3 g_settings ppDisp Cancel dwFlags bstrUrlContext bstrUrl app).2.2 =
        Cancel) ∧
    (OnNewWindow3 g_settings ppDisp Cancel dwFlags bstrUrlContext bstrUrl app).2.1 =
      ppDisp ∧
    (OnNewWindow3 g_settings ppDisp Cancel dwFlags bstrUrlContext bstrUrl app).1 = app := by
  unfold OnNewWindow3
  cases g_settings.m_dont_popup <;> cases g_settings.m_kiosk_mode <;> simp

theorem C14_new_window_witness :
    (OnNewWindow3 settingsBlacklist 0 VARIANT_FALSE 0 (L "http://a/") (L "http://b/")
      appInit).2.2 = VARIANT_FALSE :=
  (C14_new_window settingsBlacklist 0 VARIANT_FALSE 0 (L "http://a/") (L "http://b/")
    appInit).2.1 rfl rfl

/-- C15: for a FileDownload event delivered with cancel false, `OnFileDownload` leaves
cancel true exactly when `m_dont_r_click` or kiosk mode is on, and its result does not
depend on the `ActiveDocument` argument. -/
theorem C15_file_download (g_settings : Settings) (ActiveDocument : Int) (app : App) :
    ((OnFileDownload g_settings ActiveDocument VARIANT_FALSE app).2 = VARIANT_TRUE ↔
      (g_settings.m_dont_r_click = true ∨ g_settings.m_kiosk_mode = true)) ∧
    ∀ (other : Int) (Cancel : Int),
      OnFileDownload g_settings other Cancel app =
        OnFileDownload g_settings ActiveDocument Cancel app := by
  unfold OnFileDownload
  have hne : VARIANT_FALSE ≠ VARIANT_TRUE := by decide
  cases g_settings.m_dont_r_click <;> cases g_settings.m_kiosk_mode <;> simp [hne]

/-- C19: after `OnNavigateComplete2` for a top-frame event with URL `u`, `s_strURL` is
`u` and `s_bLoadingPage` is FALSE whatever they were, the title and the address bar are
as before, and the calls made are the refresh label, `Zoom`, the posted
document-complete refresh and the release of the application pointer. -/
theorem C19_navigate_complete (host : Host) (pDispatch : Nat) (u : WString) (app : App)
    (htop : host.get_Application = some pDispatch) :
    (OnNavigateComplete2 host pDispatch u app).s_strURL = u ∧
    (OnNavigateComplete2 host pDispatch u app).s_bLoadingPage = false ∧
    (OnNavigateComplete2 host pDispatch u app).s_strTitle = app.s_strTitle ∧
    (OnNavigateComplete2 host pDispatch u app).addrBarText = app.addrBarText ∧
    (OnNavigateComplete2 host pDispatch u app).effects = app.effects ++
      [Effect.SetDlgItemText_STOP_REFRESH .IDS_REFRESH, Effect.Zoom,
       Effect.PostMessage .ID_DOCUMENT_COMPLETE, Effect.pApp_Release] := by
  simp [OnNavigateComplete2, htop, PostMessage]

theorem C19_navigate_complete_witness :
    (OnNavigateComplete2 hostReady 7 (L "https://example.com/")
      { appInit with s_strURL := L "about:blank", s_bLoadingPage := true }).s_strURL =
        L "https://example.com/" :=
  (C19_navigate_complete hostReady 7 (L "https://example.com/")
    { appInit with s_strURL := L "about:blank", s_bLoadingPage := true } rfl).1

/-- C20: for a BeforeNavigate or NavigateComplete event whose source handle is not the
application handle of the browser (or when that handle cannot be obtained), the
handler leaves `s_strURL`, `s_strTitle`, `s_bLoadingPage`, the address bar and the
cancel flag unchanged and posts nothing: its only possible call is the release of the
application pointer, whatever the URL and the configuration. -/
theorem C20_nested_frames_ignored (api : ShellApi) (g_settings : Settings) (host : Host)
    (pDispatch : Nat) (url : WString) (Cancel : Int) (app : App)
    (hnested : host.get_Application ≠ some pDispatch) :
    ((OnBeforeNavigate2 api g_settings host pDispatch url Cancel app).2 = Cancel ∧
      ∃ calls, (calls = [] ∨ calls = [Effect.pApp_Release]) ∧
        (OnBeforeNavigate2 api g_settings host pDispatch url Cancel app).1 =
          { app with effects := app.effects ++ calls }) ∧
    ∃ calls, (calls = [] ∨ calls = [Effect.pApp_Release]) ∧
      OnNavigateComplete2 host pDispatch url app =
        { app with effects := app.effects ++ calls } := by
  cases hApp : host.get_Application with
  | none =>
    refine ⟨⟨?_, [], Or.inl rfl, ?_⟩, [], Or.inl rfl, ?_⟩ <;>
      simp [OnBeforeNavigate2, OnNavigateComplete2, hApp]
  | some pApp =>
    have hne : pApp ≠ pDispatch := fun h => hnested (by rw [hApp, h])
    refine ⟨⟨?_, [Effect.pApp_Release], Or.inr rfl, ?_⟩,
      [Effect.pApp_Release], Or.inr rfl, ?_⟩ <;>
      simp [OnBeforeNavigate2, OnNavigateComplete2, hApp, hne]

theorem C20_nested_frames_ignored_witness :
    (OnBeforeNavigate2 shellNoFiles settingsBlacklist hostReady 8
      (L "http://example-bad.test/page") VARIANT_FALSE appInit).2 = VARIANT_FALSE :=
  (C20_nested_frames_ignored shellNoFiles settingsBlacklist hostReady 8
    (L "http://example-bad.test/page") VARIANT_FALSE appInit (by decide)).1.1

/-! ## View-source download -/

/-- The chain of download attempts stops at the first success. -/
theorem tryDownloads_spec (env : DownloadEnv) (cands : List WString) :
    (DoNavigate.tryDownloads env cands).1 <+: cands ∧
    (∀ v ∈ (DoNavigate.tryDownloads env cands).1.dropLast,
      env.URLDownloadToFile v = false) ∧
    ((DoNavigate.tryDownloads env cands).2 = true →
      ∃ u, (DoNavigate.tryDownloads env cands).1.getLast? = some u ∧
        env.URLDownloadToFile u = true) ∧
    ((DoNavigate.tryDownloads env cands).2 = false →
      (DoNavigate.tryDownloads env cands).1 = cands ∧
        ∀ v ∈ cands, env.URLDownloadToFile v = false) := by
  induction cands with
  | nil => simp [DoNavigate.tryDownloads]
  | cons u rest ih =>
    obtain ⟨ih1, ih2, ih3, ih4⟩ := ih
    cases hu : env.URLDownloadToFile u with
    | true =>
      simp only [DoNavigate.tryDownloads, hu, if_true]
      refine ⟨?_, ?_, ?_, ?_⟩
      · exact ⟨rest, rfl⟩
      · simp
      · intro _; exact ⟨u, rfl, hu⟩
      · intro h; cases h
    | false =>
      simp only [DoNavigate.tryDownloads, hu, Bool.false_eq_true, if_false]
      refine ⟨?_, ?_, ?_, ?_⟩
      · exact (List.prefix_cons_inj u).mpr ih1
      · intro v hv
        cases hr : (DoNavigate.tryDownloads env rest).1 with
        | nil => rw [hr] at hv; simp at hv
        | cons w ws =>
          rw [hr] at hv ih2
          rw [List.dropLast_cons₂] at hv
          rcases List.mem_cons.mp hv with h | h
          · rw [h]; exact hu
          · exact ih2 v h
      · intro h
        obtain ⟨w, hw, hok⟩ := ih3 h
        refine ⟨w, ?_, hok⟩
        cases hr : (DoNavigate.tryDownloads env rest).1 with
        | nil => rw [hr] at hw; simp at hw
        | cons x xs => rw [hr] at hw; rw [List.getLast?_cons_cons]; exact hw
      · intro h
        obtain ⟨heq, hall⟩ := ih4 h
        refine ⟨by rw [heq], ?_⟩
        intro v hv
        rcases List.mem_cons.mp hv with h' | h'
        · rw [h']; exact hu
        · exact hall v h'

theorem candidates_nodup (substr : WString) : (DoNavigate.candidates substr).Nodup := by
  have h : DoNavigate.candidates substr =
      List.map (fun p => p ++ substr)
        [[], L "https:", L "https://", L "http:", L "http://"] := by
    simp [DoNavigate.candidates]
  rw [h]
  exact List.Nodup.map (fun a b hab => List.append_left_inj substr |>.mp hab) (by decide)

theorem filterMap_downloadUrl_map (file : WString) (urls : List WString) :
    (List.map (fun new_url => Effect.URLDownloadToFile new_url file) urls).filterMap
      Effect.downloadUrl = urls := by
  induction urls with
  | nil => rfl
  | cons u rest ih => simp [Effect.downloadUrl, ih]

theorem filterMap_downloadUrl_comp (file : WString) (urls : List WString) :
    List.filterMap
      (Effect.downloadUrl ∘ fun new_url => Effect.URLDownloadToFile new_url file) urls =
        urls := by
  rw [← List.filterMap_map]
  exact filterMap_downloadUrl_map file urls

theorem filterMap_downloadUrl_replicate (n : Nat) :
    (List.replicate n Effect.Sleep).filterMap Effect.downloadUrl = [] := by
  induction n with
  | zero => rfl
  | succ n ih => simp [List.replicate_succ, Effect.downloadUrl, ih]

theorem SetInternalPageContents_downloads (host : Host) (html : WString)
    (is_html : Bool) (app : App) :
    (SetInternalPageContents host html is_html app).effects.filterMap Effect.downloadUrl =
      app.effects.filterMap Effect.downloadUrl := by
  unfold SetInternalPageContents
  cases host.get_Document <;> simp [Effect.downloadUrl]

/-- The download calls made by the view-source body, whether it returns or stops at a
failed `assert`, are the attempts of the chain. -/
theorem viewSource_downloads (build : Build) (host : Host) (env : DownloadEnv)
    (file substr : WString) (app app1 : App)
    (h : (DoNavigate.viewSource build host env file substr app).app? = some app1) :
    app1.effects.filterMap Effect.downloadUrl =
      app.effects.filterMap Effect.downloadUrl ++
        (DoNavigate.tryDownloads env (DoNavigate.candidates substr)).1 := by
  unfold DoNavigate.viewSource at h
  simp only at h
  split at h
  · split at h
    · cases h
    · rename_i n o hw
      split at h
      · split at h
        · cases h
          simp [List.filterMap_append, filterMap_downloadUrl_comp,
            filterMap_downloadUrl_replicate, SetInternalPageContents_downloads,
            Effect.downloadUrl]
        · cases build <;> cases h <;>
          simp [List.filterMap_append, filterMap_downloadUrl_comp,
            filterMap_downloadUrl_replicate, Effect.downloadUrl]
      · cases build <;> cases h <;>
        simp [List.filterMap_append, filterMap_downloadUrl_comp,
          filterMap_downloadUrl_replicate, Effect.downloadUrl]
  · cases build <;> cases h <;>
    simp [List.filterMap_append, filterMap_downloadUrl_comp, Effect.downloadUrl]

/-- The view-source body ends, by return or at a failed `assert`, when the polling loop
ends or no download could be started. -/
theorem viewSource_ends (build : Build) (host : Host) (env : DownloadEnv)
    (file substr : WString) (app : App)
    (h : (DoNavigate.waitLoop env.polls).isSome = true ∨
      (DoNavigate.tryDownloads env (DoNavigate.candidates substr)).2 = false) :
    DoNavigate.viewSource build host env file substr app ≠ .polling := by
  unfold DoNavigate.viewSource
  simp only
  cases hr : (DoNavigate.tryDownloads env (DoNavigate.candidates substr)).2 with
  | false => cases build <;> simp [assert0]
  | true =>
    rw [hr] at h
    simp only [Bool.true_eq_false, or_false] at h
    cases hw : DoNavigate.waitLoop env.polls with
    | none => rw [hw] at h; cases h
    | some r =>
      obtain ⟨n, o⟩ := r
      simp only [if_true]
      cases hc : o.IsCompleted <;> cases env.fopen <;> cases build <;> simp [hc, assert0]

/-- A release build of the view-source body never stops at an `assert`. -/
theorem viewSource_release (host : Host) (env : DownloadEnv) (file substr : WString)
    (app app1 : App) :
    DoNavigate.viewSource .release host env file substr app ≠ .assertion_failed app1 := by
  unfold DoNavigate.viewSource
  simp only
  cases (DoNavigate.tryDownloads env (DoNavigate.candidates substr)).2 with
  | false => simp [assert0]
  | true =>
    simp only [if_true]
    cases DoNavigate.waitLoop env.polls with
    | none => simp
    | some r =>
      obtain ⟨n, o⟩ := r
      cases hc : o.IsCompleted <;> cases env.fopen <;> simp [hc, assert0]

/-- A debug build of the view-source body stops at the `assert(0)` of line 471, after
the attempts, when no download could be started. -/
theorem viewSource_debug_all_failed (host : Host) (env : DownloadEnv)
    (file substr : WString) (app : App)
    (h : (DoNavigate.tryDownloads env (DoNavigate.candidates substr)).2 = false) :
    DoNavigate.viewSource .debug host env file substr app =
      .assertion_failed { app with
        effects := app.effects ++
          List.map (fun new_url => Effect.URLDownloadToFile new_url file)
            (DoNavigate.tryDownloads env (DoNavigate.candidates substr)).1 } := by
  unfold DoNavigate.viewSource
  simp [h, assert0]

/-- C16 as stated fails in two ways.  When no temporary file can be created,
`DoNavigate` attempts no download at all for `view-source:example.com`, although every
download would fail and the claim has all five candidates attempted.  And the candidates
are built from the trimmed URL: for `view-source:example.com ` (with a blank at the end)
the URL attempted is `example.com`, which is none of the five candidates built from
`example.com ` with the blank. -/
theorem C16_counterexample :
    envNoTemp.DoGetTemporaryFile = none ∧
    (DoNavigate.tryDownloads envNoTemp (DoNavigate.candidates (L "example.com"))).1 =
      [L "example.com", L "https:example.com", L "https://example.com",
       L "http:example.com", L "http://example.com"] ∧
    (DoNavigate .release hostReady envNoTemp (L "view-source:example.com")
      appInit).app?.map (fun a => a.effects.filterMap Effect.downloadUrl) = some [] ∧
    (DoNavigate .debug hostReady envNoTemp (L "view-source:example.com")
      appInit).app?.map (fun a => a.effects.filterMap Effect.downloadUrl) = some [] ∧
    (DoNavigate .release hostReady envDownloadOk (L "view-source:example.com ")
      appInit).app?.map (fun a => a.effects.filterMap Effect.downloadUrl) =
        some [L "example.com"] ∧
    (DoNavigate .debug hostReady envDownloadOk (L "view-source:example.com ")
      appInit).app?.map (fun a => a.effects.filterMap Effect.downloadUrl) =
        some [L "example.com"] ∧
    L "example.com" ∉ DoNavigate.candidates (L "example.com ") := by
  decide

/-- C16 (amended): for a request whose URL, trimmed of white space at both ends, is
`view-source:` followed by `s`, and for which a temporary file can be created, the
downloads attempted by `DoNavigate` are a prefix of `s`, `https:s`, `https://s`,
`http:s`, `http://s`, in that order and without repetition: every attempt but the last
failed, and either the last attempt succeeded or all five were attempted and failed.
These are the only downloads `DoNavigate` starts, in a debug and in a release build,
whether the run returns or stops at a failed `assert`; the run ends whenever the polling
loop ends or no download could be started: a release build then returns, and a debug
build in which all five attempts failed stops at the `assert(0)` of line 471. -/
theorem C16_download_attempts (build : Build) (host : Host) (env : DownloadEnv)
    (url s file : WString) (app : App)
    (hurl : StrTrimW url (L " \t\n\r\x0c\x0b") = L "view-source:" ++ s)
    (hfile : env.DoGetTemporaryFile = some file) :
    DoNavigate.candidates s =
      [s, L "https:" ++ s, L "https://" ++ s, L "http:" ++ s, L "http://" ++ s] ∧
    (DoNavigate.tryDownloads env (DoNavigate.candidates s)).1 <+:
      DoNavigate.candidates s ∧
    (DoNavigate.tryDownloads env (DoNavigate.candidates s)).1.Nodup ∧
    (∀ v ∈ (DoNavigate.tryDownloads env (DoNavigate.candidates s)).1.dropLast,
      env.URLDownloadToFile v = false) ∧
    ((∃ u, (DoNavigate.tryDownloads env (DoNavigate.candidates s)).1.getLast? = some u ∧
        env.URLDownloadToFile u = true) ∨
      ((DoNavigate.tryDownloads env (DoNavigate.candidates s)).1 =
          DoNavigate.candidates s ∧
        ∀ v ∈ DoNavigate.candidates s, env.URLDownloadToFile v = false)) ∧
    (∀ app1, (DoNavigate build host env url app).app? = some app1 →
      app1.effects.filterMap Effect.downloadUrl =
        app.effects.filterMap Effect.downloadUrl ++
          (DoNavigate.tryDownloads env (DoNavigate.candidates s)).1) ∧
    (((DoNavigate.waitLoop env.polls).isSome = true ∨
        ∀ v ∈ DoNavigate.candidates s, env.URLDownloadToFile v = false) →
      (∃ app1, (DoNavigate build host env url app).app? = some app1) ∧
      (∃ app1, DoNavigate .release host env url app = .returned app1)) ∧
    ((∀ v ∈ DoNavigate.candidates s, env.URLDownloadToFile v = false) →
      DoNavigate .debug host env url app =
        .assertion_failed { app with
          effects := app.effects ++
            List.map (fun new_url => Effect.URLDownloadToFile new_url file)
              (DoNavigate.candidates s) }) := by
  obtain ⟨hpre, hfail, hok, hnone⟩ := tryDownloads_spec env (DoNavigate.candidates s)
  have hfind : wfind (L "view-source:") (StrTrimW url (L " \t\n\r\x0c\x0b")) = some 0 := by
    rw [wfind_eq_zero_iff, hurl]
    exact List.prefix_append _ _
  have hdrop : (StrTrimW url (L " \t\n\r\x0c\x0b")).drop (L "view-source:").length = s := by
    rw [hurl]
    exact List.drop_left _ _
  have hall : (∀ v ∈ DoNavigate.candidates s, env.URLDownloadToFile v = false) →
      (DoNavigate.tryDownloads env (DoNavigate.candidates s)).2 = false := by
    intro h
    cases h2 : (DoNavigate.tryDownloads env (DoNavigate.candidates s)).2 with
    | false => rfl
    | true =>
      obtain ⟨u, hu, huok⟩ := hok h2
      have hmem : u ∈ DoNavigate.candidates s :=
        hpre.subset (List.mem_of_getLast?_eq_some hu)
      rw [h u hmem] at huok
      cases huok
  have hends : ∀ b : Build, ((DoNavigate.waitLoop env.polls).isSome = true ∨
      ∀ v ∈ DoNavigate.candidates s, env.URLDownloadToFile v = false) →
      DoNavigate.viewSource b host env file s app ≠ .polling := by
    intro b h
    exact viewSource_ends b host env file s app (h.imp id hall)
  refine ⟨rfl, hpre, (candidates_nodup s).sublist hpre.sublist, hfail, ?_, ?_, ?_, ?_⟩
  · cases h2 : (DoNavigate.tryDownloads env (DoNavigate.candidates s)).2 with
    | true => exact Or.inl (hok h2)
    | false => exact Or.inr (hnone h2)
  · intro app1 h
    simp only [DoNavigate, hfind, if_true, hfile, hdrop] at h
    cases hv : DoNavigate.viewSource build host env file s app with
    | polling => rw [hv] at h; cases h
    | returned a =>
      rw [hv] at h
      cases h
      simp [DoUpdateURL, List.filterMap_append, Effect.downloadUrl,
        viewSource_downloads build host env file s app a (by rw [hv]; rfl)]
    | assertion_failed a =>
      rw [hv] at h
      have ha : a = app1 := Option.some.inj h
      rw [← ha]
      exact viewSource_downloads build host env file s app a (by rw [hv]; rfl)
  · intro h
    constructor
    · simp only [DoNavigate, hfind, if_true, hfile, hdrop]
      cases hv : DoNavigate.viewSource build host env file s app with
      | polling => exact absurd hv (hends build h)
      | returned a => exact ⟨_, rfl⟩
      | assertion_failed a => exact ⟨_, rfl⟩
    · simp only [DoNavigate, hfind, if_true, hfile, hdrop]
      cases hv : DoNavigate.viewSource .release host env file s app with
      | polling => exact absurd hv (hends .release h)
      | returned a => exact ⟨_, rfl⟩
      | assertion_failed a => exact absurd hv (viewSource_release host env file s app a)
  · intro h
    simp only [DoNavigate, hfind, if_true, hfile, hdrop]
    rw [viewSource_debug_all_failed host env file s app (hall h), (hnone (hall h)).1]

theorem C16_download_attempts_witness :
    (DoNavigate.tryDownloads envHttpsOnly (DoNavigate.candidates (L "example.com"))).1 <+:
      DoNavigate.candidates (L "example.com") :=
  (C16_download_attempts .debug hostReady envHttpsOnly (L " view-source:example.com ")
    (L "example.com") (L "sbt1.tmp") appInit (by decide) rfl).2.1

/-! ## Escaping and encoding -/

theorem text2html_contents_eq_esc (t : WString) : text2html.contents t = esc t := by
  induction t with
  | nil => rfl
  | cons c rest ih =>
    simp only [text2html.contents, esc, List.flatMap_cons]
    rw [ih]
    rfl

theorem esc_cons (c : Char) (t : WString) :
    esc (c :: t) =
      (if c = '<' then L "&lt;" else if c = '>' then L "&gt;"
        else if c = '&' then L "&amp;" else [c]) ++ esc t := by
  simp only [esc, List.flatMap_cons]

theorem esc_no_markup (t : WString) : '<' ∉ esc t ∧ '>' ∉ esc t := by
  induction t with
  | nil => simp [esc]
  | cons c rest ih =>
    rw [esc_cons]
    by_cases h1 : c = '<'
    · rw [if_pos h1]
      refine ⟨?_, ?_⟩ <;> rw [List.mem_append, not_or]
      · exact ⟨by decide, ih.1⟩
      · exact ⟨by decide, ih.2⟩
    · rw [if_neg h1]
      by_cases h2 : c = '>'
      · rw [if_pos h2]
        refine ⟨?_, ?_⟩ <;> rw [List.mem_append, not_or]
        · exact ⟨by decide, ih.1⟩
        · exact ⟨by decide, ih.2⟩
      · rw [if_neg h2]
        by_cases h3 : c = '&'
        · rw [if_pos h3]
          refine ⟨?_, ?_⟩ <;> rw [List.mem_append, not_or]
          · exact ⟨by decide, ih.1⟩
          · exact ⟨by decide, ih.2⟩
        · rw [if_neg h3]
          refine ⟨?_, ?_⟩ <;> rw [List.mem_append, not_or]
          · exact ⟨by simpa using Ne.symm h1, ih.1⟩
          · exact ⟨by simpa using Ne.symm h2, ih.2⟩

/-- Every `&` of the escaped text starts an entity. -/
theorem esc_amp_entity (t : WString) (i : Nat) (h : (esc t).get? i = some '&') :
    L "&lt;" <+: (esc t).drop i ∨ L "&gt;" <+: (esc t).drop i ∨
      L "&amp;" <+: (esc t).drop i := by
  induction t generalizing i with
  | nil => simp [esc] at h
  | cons c rest ih =>
    rw [esc_cons] at h ⊢
    by_cases h1 : c = '<'
    · rw [if_pos h1] at h ⊢
      rcases i with _ | _ | _ | _ | i
      · exact Or.inl ⟨esc rest, rfl⟩
      · exact absurd (show some 'l' = some '&' from h) (by decide)
      · exact absurd (show some 't' = some '&' from h) (by decide)
      · exact absurd (show some ';' = some '&' from h) (by decide)
      · exact ih i h
    · rw [if_neg h1] at h ⊢
      by_cases h2 : c = '>'
      · rw [if_pos h2] at h ⊢
        rcases i with _ | _ | _ | _ | i
        · exact Or.inr (Or.inl ⟨esc rest, rfl⟩)
        · exact absurd (show some 'g' = some '&' from h) (by decide)
        · exact absurd (show some 't' = some '&' from h) (by decide)
        · exact absurd (show some ';' = some '&' from h) (by decide)
        · exact ih i h
      · rw [if_neg h2] at h ⊢
        by_cases h3 : c = '&'
        · rw [if_pos h3] at h ⊢
          rcases i with _ | _ | _ | _ | _ | i
          · exact Or.inr (Or.inr ⟨esc rest, rfl⟩)
          · exact absurd (show some 'a' = some '&' from h) (by decide)
          · exact absurd (show some 'm' = some '&' from h) (by decide)
          · exact absurd (show some 'p' = some '&' from h) (by decide)
          · exact absurd (show some ';' = some '&' from h) (by decide)
          · exact ih i h
        · rw [if_neg h3] at h ⊢
          rcases i with _ | i
          · simp only [List.singleton_append, List.get?_cons_zero, Option.some.injEq] at h
            exact absurd h h3
          · exact ih i h

/-- C17: `text2html t` is the fixed prefix, the escaped text `esc t` and the fixed
suffix; the escaped text contains no `<` and no `>`, and every `&` in it is the first
character of `&lt;`, `&gt;` or `&amp;`. -/
theorem C17_text2html (t : WString) :
    text2html t = L "<html><body><pre>" ++ esc t ++ L "</pre></body></html>" ∧
    '<' ∉ esc t ∧ '>' ∉ esc t ∧
    ∀ i, (esc t).get? i = some '&' →
      (L "&lt;" <+: (esc t).drop i ∨ L "&gt;" <+: (esc t).drop i ∨
        L "&amp;" <+: (esc t).drop i) := by
  refine ⟨?_, (esc_no_markup t).1, (esc_no_markup t).2, esc_amp_entity t⟩
  simp only [text2html, text2html_contents_eq_esc]

theorem C17_text2html_witness :
    L "&lt;" <+: (esc (L "a<b&c")).drop 6 ∨ L "&gt;" <+: (esc (L "a<b&c")).drop 6 ∨
      L "&amp;" <+: (esc (L "a<b&c")).drop 6 :=
  (C17_text2html (L "a<b&c")).2.2.2 6 (by decide)

/-- C18: the code page chosen for a fetched buffer is 932 when the buffer contains
`Shift_JIS`, `shift_jis` or `x-sjis`, whether or not it also contains a Latin-1 marker;
otherwise 28591 when it contains `ISO-8859-1` or `iso-8859-1`; otherwise `CP_UTF8`;
a buffer holding only another casing of a marker, such as `SHIFT_JIS`, gets
`CP_UTF8`. -/
theorem C18_code_page (contents : List Nat) :
    ((A "Shift_JIS" <:+: contents ∨ A "shift_jis" <:+: contents ∨
        A "x-sjis" <:+: contents) →
      DoNavigate.codePage contents = 932) ∧
    (¬ (A "Shift_JIS" <:+: contents ∨ A "shift_jis" <:+: contents ∨
        A "x-sjis" <:+: contents) →
      (A "ISO-8859-1" <:+: contents ∨ A "iso-8859-1" <:+: contents) →
      DoNavigate.codePage contents = 28591) ∧
    (¬ (A "Shift_JIS" <:+: contents ∨ A "shift_jis" <:+: contents ∨
        A "x-sjis" <:+: contents) →
      ¬ (A "ISO-8859-1" <:+: contents ∨ A "iso-8859-1" <:+: contents) →
      DoNavigate.codePage contents = CP_UTF8) ∧
    DoNavigate.codePage (A "charset=SHIFT_JIS") = CP_UTF8 ∧
    DoNavigate.codePage (A "charset=Iso-8859-1") = CP_UTF8 := by
  have hs1 := wfind_isSome_iff (A "Shift_JIS") contents
  have hs2 := wfind_isSome_iff (A "shift_jis") contents
  have hs3 := wfind_isSome_iff (A "x-sjis") contents
  have hi1 := wfind_isSome_iff (A "ISO-8859-1") contents
  have hi2 := wfind_isSome_iff (A "iso-8859-1") contents
  refine ⟨?_, ?_, ?_, by decide, by decide⟩
  · intro h
    rw [← hs1, ← hs2, ← hs3] at h
    simp only [DoNavigate.codePage]
    rw [if_pos (by simpa [Bool.or_eq_true, or_assoc] using h)]
  · intro hn h
    rw [← hs1, ← hs2, ← hs3] at hn
    rw [← hi1, ← hi2] at h
    simp only [DoNavigate.codePage]
    rw [if_neg (by simpa [Bool.or_eq_true, or_assoc] using hn),
      if_pos (by simpa [Bool.or_eq_true] using h)]
  · intro hn hn2
    rw [← hs1, ← hs2, ← hs3] at hn
    rw [← hi1, ← hi2] at hn2
    simp only [DoNavigate.codePage]
    rw [if_neg (by simpa [Bool.or_eq_true, or_assoc] using hn),
      if_neg (by simpa [Bool.or_eq_true] using hn2)]

theorem C18_code_page_witness :
    DoNavigate.codePage (A "<meta charset=ISO-8859-1> x-sjis") = 932 :=
  (C18_code_page (A "<meta charset=ISO-8859-1> x-sjis")).1
    (Or.inr (Or.inr ⟨A "<meta charset=ISO-8859-1> ", [], by decide⟩))

/-! ## Command state, history and startup -/

theorem OnCommandStateChange_back (Command Enable : Int) (st : CommandState) :
    (OnCommandStateChange Command Enable st).bEnableBack =
      if Command = CSC_NAVIGATEBACK then decide (Enable = VARIANT_TRUE)
      else st.bEnableBack := by
  have hfb : CSC_NAVIGATEFORWARD ≠ CSC_NAVIGATEBACK := by decide
  unfold OnCommandStateChange
  by_cases hf : Command = CSC_NAVIGATEFORWARD
  · subst hf
    simp [hfb]
  · by_cases hb : Command = CSC_NAVIGATEBACK
    · subst hb
      simp [Ne.symm hfb]
    · simp [hf, hb]

theorem OnCommandStateChange_forward (Command Enable : Int) (st : CommandState) :
    (OnCommandStateChange Command Enable st).bEnableForward =
      if Command = CSC_NAVIGATEFORWARD then decide (Enable = VARIANT_TRUE)
      else st.bEnableForward := by
  have hfb : CSC_NAVIGATEFORWARD ≠ CSC_NAVIGATEBACK := by decide
  unfold OnCommandStateChange
  by_cases hf : Command = CSC_NAVIGATEFORWARD
  · subst hf
    simp
  · by_cases hb : Command = CSC_NAVIGATEBACK
    · subst hb
      simp [Ne.symm hfb]
    · simp [hf, hb]

/-- The flags after a sequence of events, from any starting state. -/
theorem commandStateChanges_flags (events : List (Int × Int)) (st : CommandState) :
    (commandStateChanges events st).bEnableBack =
      (match (events.filter (fun e => decide (e.1 = CSC_NAVIGATEBACK))).getLast? with
        | some e => decide (e.2 = VARIANT_TRUE)
        | none => st.bEnableBack) ∧
    (commandStateChanges events st).bEnableForward =
      (match (events.filter (fun e => decide (e.1 = CSC_NAVIGATEFORWARD))).getLast? with
        | some e => decide (e.2 = VARIANT_TRUE)
        | none => st.bEnableForward) := by
  induction events using List.reverseRecOn with
  | nil => simp [commandStateChanges]
  | append_singleton l e ih =>
    obtain ⟨ihb, ihf⟩ := ih
    simp only [commandStateChanges] at ihb ihf ⊢
    simp only [List.foldl_append, List.foldl_cons, List.foldl_nil, List.filter_append]
    rw [OnCommandStateChange_back, OnCommandStateChange_forward, ihb, ihf]
    constructor
    · by_cases hb : e.1 = CSC_NAVIGATEBACK
      · simp [hb, List.filter_cons]
      · simp [hb, List.filter_cons]
    · by_cases hf : e.1 = CSC_NAVIGATEFORWARD
      · simp [hf, List.filter_cons]
      · simp [hf, List.filter_cons]

theorem commandStateChanges_buttons (events : List (Int × Int)) (st : CommandState)
    (h : events ≠ []) :
    (commandStateChanges events st).ID_BACK_enabled =
      (commandStateChanges events st).bEnableBack ∧
    (commandStateChanges events st).ID_NEXT_enabled =
      (commandStateChanges events st).bEnableForward := by
  induction events using List.reverseRecOn with
  | nil => exact absurd rfl h
  | append_singleton l e _ =>
    simp only [commandStateChanges, List.foldl_append, List.foldl_cons, List.foldl_nil]
    simp [OnCommandStateChange]

/-- C21: after any sequence of CommandStateChange events from program start, the Back
flag is the value stored by the most recent event with command Back (FALSE if there was
none) and the Forward flag that of the most recent event with command Forward (FALSE if
none); the stored value is TRUE exactly when the delivered value is `VARIANT_TRUE`; one
event changes at most the flag of its own command; and after at least one event the two
buttons are enabled as the flags say. -/
theorem C21_command_state (events : List (Int × Int)) (back next : Bool) :
    (commandStateChanges events (CommandState.init back next)).bEnableBack =
      (match (events.filter (fun e => decide (e.1 = CSC_NAVIGATEBACK))).getLast? with
        | some e => decide (e.2 = VARIANT_TRUE)
        | none => false) ∧
    (commandStateChanges events (CommandState.init back next)).bEnableForward =
      (match (events.filter (fun e => decide (e.1 = CSC_NAVIGATEFORWARD))).getLast? with
        | some e => decide (e.2 = VARIANT_TRUE)
        | none => false) ∧
    (∀ (Command Enable : Int) (st : CommandState),
      (Command ≠ CSC_NAVIGATEBACK →
        (OnCommandStateChange Command Enable st).bEnableBack = st.bEnableBack) ∧
      (Command ≠ CSC_NAVIGATEFORWARD →
        (OnCommandStateChange Command Enable st).bEnableForward = st.bEnableForward) ∧
      (Command = CSC_NAVIGATEBACK →
        ((OnCommandStateChange Command Enable st).bEnableBack = true ↔
          Enable = VARIANT_TRUE)) ∧
      (Command = CSC_NAVIGATEFORWARD →
        ((OnCommandStateChange Command Enable st).bEnableForward = true ↔
          Enable = VARIANT_TRUE))) ∧
    (events ≠ [] →
      (commandStateChanges events (CommandState.init back next)).ID_BACK_enabled =
        (commandStateChanges events (CommandState.init back next)).bEnableBack ∧
      (commandStateChanges events (CommandState.init back next)).ID_NEXT_enabled =
        (commandStateChanges events (CommandState.init back next)).bEnableForward) := by
  refine ⟨(commandStateChanges_flags events _).1, (commandStateChanges_flags events _).2,
    ?_, commandStateChanges_buttons events _⟩
  intro Command Enable st
  rw [OnCommandStateChange_back, OnCommandStateChange_forward]
  refine ⟨fun h => if_neg h, fun h => if_neg h, fun h => ?_, fun h => ?_⟩ <;>
    simp [h]

theorem C21_command_state_witness :
    (commandStateChanges [(2, -1), (1, 1), (5, -1), (2, 0), (1, -1)]
      (CommandState.init true true)).ID_BACK_enabled =
    (commandStateChanges [(2, -1), (1, 1), (5, -1), (2, 0), (1, -1)]
      (CommandState.init true true)).bEnableBack :=
  ((C21_command_state [(2, -1), (1, 1), (5, -1), (2, 0), (1, -1)] true true).2.2.2
    (by decide)).1

/-- C22: for a history list without duplicates and current URL `u`, after
`OnAddToComboBox` the list `m_url_list` starts with `u`, holds `u` exactly once, has no
duplicates, and continues with the previous list without `u` in its previous order; its
length grows by one when `u` was absent and is unchanged when `u` was present. -/
theorem C22_url_history (FindStringExact : List WString → WString → Option Nat)
    (g_settings : Settings) (items : List WString) (app : App)
    (hnodup : g_settings.m_url_list.Nodup) :
    (OnAddToComboBox FindStringExact g_settings items app).1.m_url_list.head? =
      some app.s_strURL ∧
    (OnAddToComboBox FindStringExact g_settings items app).1.m_url_list.count
      app.s_strURL = 1 ∧
    (OnAddToComboBox FindStringExact g_settings items app).1.m_url_list.Nodup ∧
    (OnAddToComboBox FindStringExact g_settings items app).1.m_url_list.tail =
      g_settings.m_url_list.filter (fun x => x != app.s_strURL) ∧
    (app.s_strURL ∉ g_settings.m_url_list →
      (OnAddToComboBox FindStringExact g_settings items app).1.m_url_list.length =
        g_settings.m_url_list.length + 1) ∧
    (app.s_strURL ∈ g_settings.m_url_list →
      (OnAddToComboBox FindStringExact g_settings items app).1.m_url_list.length =
        g_settings.m_url_list.length) := by
  have hnot : app.s_strURL ∉ g_settings.m_url_list.erase app.s_strURL :=
    fun h => ((hnodup.mem_erase_iff).mp h).1 rfl
  have hnew : (OnAddToComboBox FindStringExact g_settings items app).1.m_url_list =
      app.s_strURL :: g_settings.m_url_list.erase app.s_strURL := rfl
  rw [hnew]
  simp only [List.tail_cons, List.length_cons]
  refine ⟨rfl, ?_, ?_, ?_, ?_, ?_⟩
  · rw [List.count_cons_self, List.count_eq_zero_of_not_mem hnot]
  · exact List.nodup_cons.mpr ⟨hnot, hnodup.erase _⟩
  · exact hnodup.erase_eq_filter _
  · intro h
    rw [List.erase_of_not_mem h]
  · intro h
    rw [List.length_erase_of_mem h]
    have := List.length_pos_of_mem h
    omega

theorem C22_url_history_witness :
    (OnAddToComboBox (fun _ _ => none)
      { settingsBlacklist with m_url_list := [L "http://a/", L "http://b/"] } []
      { appInit with s_strURL := L "http://b/" }).1.m_url_list.tail =
      [L "http://a/", L "http://b/"].filter (fun x => x != L "http://b/") :=
  (C22_url_history (fun _ _ => none)
    { settingsBlacklist with m_url_list := [L "http://a/", L "http://b/"] } []
    { appInit with s_strURL := L "http://b/" } (by decide)).2.2.2.1

/-- C23 as stated fails when the stored kiosk-mode flag is already on: an argument that
is not a kiosk token is then followed by a second navigation, to the homepage. -/
theorem C23_counterexample :
    asciiEqualsIgnoreCase (L "http://example.com/") (L "-kiosk") = false ∧
    asciiEqualsIgnoreCase (L "http://example.com/") (L "--kiosk") = false ∧
    asciiEqualsIgnoreCase (L "http://example.com/") (L "/kiosk") = false ∧
    (OnCreate.startup asciiEqualsIgnoreCase settingsKiosk
      (some [L "SimpleBrowser.exe", L "http://example.com/"])).2 =
        [L "http://example.com/", L "about:blank"] := by
  decide

/-- C23 (amended): with no argument exactly one navigation is issued, to the homepage;
with an argument that `lstrcmpiW` finds equal to `-kiosk`, `--kiosk` or `/kiosk`, kiosk
mode is turned on and exactly one navigation is issued, to the homepage; with any other
argument and the stored kiosk-mode flag off, exactly one navigation is issued, to that
argument, and the settings are unchanged. -/
theorem C23_startup_navigation (lstrcmpiW_eq : WString → WString → Bool)
    (g_settings : Settings) :
    OnCreate.startup lstrcmpiW_eq g_settings none = (g_settings, [g_settings.m_homepage]) ∧
    (∀ argv : List WString, argv.length ≤ 1 →
      OnCreate.startup lstrcmpiW_eq g_settings (some argv) =
        (g_settings, [g_settings.m_homepage])) ∧
    (∀ (argv : List WString) (arg : WString), argv.get? 1 = some arg →
      (lstrcmpiW_eq arg (L "-kiosk") = true ∨ lstrcmpiW_eq arg (L "--kiosk") = true ∨
        lstrcmpiW_eq arg (L "/kiosk") = true) →
      OnCreate.startup lstrcmpiW_eq g_settings (some argv) =
        ({ g_settings with m_kiosk_mode := true }, [g_settings.m_homepage])) ∧
    (∀ (argv : List WString) (arg : WString), argv.get? 1 = some arg →
      lstrcmpiW_eq arg (L "-kiosk") = false → lstrcmpiW_eq arg (L "--kiosk") = false →
      lstrcmpiW_eq arg (L "/kiosk") = false → g_settings.m_kiosk_mode = false →
      OnCreate.startup lstrcmpiW_eq g_settings (some argv) = (g_settings, [arg])) := by
  refine ⟨?_, ?_, ?_, ?_⟩
  · simp [OnCreate.startup]
  · intro argv hlen
    have hget : argv.get? 1 = none := List.get?_eq_none.mpr hlen
    simp only [OnCreate.startup, hget]
    simp [hlen]
  · intro argv arg hget hk
    have hor : (lstrcmpiW_eq arg (L "-kiosk") || lstrcmpiW_eq arg (L "--kiosk") ||
        lstrcmpiW_eq arg (L "/kiosk")) = true := by
      rcases hk with h | h | h <;> simp [h]
    simp only [OnCreate.startup, hget, hor]
    simp
  · intro argv arg hget h1 h2 h3 hkiosk
    have hlen : ¬ argv.length ≤ 1 := by
      intro h
      rw [List.get?_eq_none.mpr h] at hget
      cases hget
    simp only [OnCreate.startup, hget, h1, h2, h3]
    simp [hkiosk, hlen]

theorem C23_startup_navigation_witness :
    OnCreate.startup asciiEqualsIgnoreCase settingsKiosk
      (some [L "SimpleBrowser.exe", L "--KIOSK"]) =
        ({ settingsKiosk with m_kiosk_mode := true }, [settingsKiosk.m_homepage]) :=
  (C23_startup_navigation asciiEqualsIgnoreCase settingsKiosk).2.2.1
    [L "SimpleBrowser.exe", L "--KIOSK"] (L "--KIOSK") rfl (Or.inr (Or.inl (by decide)))

/-! ## Policy: kiosk mode, letter case, blacklist -/

theorem UrlInBlackList_kiosk (g_settings : Settings) (kiosk : Bool) (url : WString) :
    UrlInBlackList { g_settings with m_kiosk_mode := kiosk } url =
      UrlInBlackList g_settings url := rfl

theorem IsAccessibleProtocol_of_kiosk (g_settings : Settings) (p : WString)
    (h : IsAccessibleProtocol { g_settings with m_kiosk_mode := true } p = true) :
    p = L "http" ∨ p = L "https" ∨ p = L "view-source" ∨ p = L "about" := by
  unfold IsAccessibleProtocol at h
  by_contra hne
  rw [if_neg hne] at h
  simp at h

/-- C24: with the blacklist, the local-file-access flag and the shell answers fixed, a
URL that is allowed with kiosk mode on is also allowed with kiosk mode off; and with
kiosk mode on `IsAccessibleURL` is FALSE for every local-file-like URL and for every URL
whose text before the first `:` is `file`. -/
theorem C24_kiosk_tightens (api : ShellApi) (g_settings : Settings) (url : WString) :
    ((UrlInBlackList { g_settings with m_kiosk_mode := true } url = false ∧
        IsAccessibleURL api { g_settings with m_kiosk_mode := true } url = true) →
      (UrlInBlackList { g_settings with m_kiosk_mode := false } url = false ∧
        IsAccessibleURL api { g_settings with m_kiosk_mode := false } url = true)) ∧
    (api.localFileLike url = true →
      IsAccessibleURL api { g_settings with m_kiosk_mode := true } url = false) ∧
    (∀ n, wcschr url ':' = some n → url.take n = L "file" →
      IsAccessibleURL api { g_settings with m_kiosk_mode := true } url = false) := by
  refine ⟨?_, ?_, ?_⟩
  · rintro ⟨hbl, hacc⟩
    refine ⟨hbl, ?_⟩
    unfold IsAccessibleURL at hacc ⊢
    by_cases hlocal : (api.PathFileExists url || api.UrlIsFileUrl url ||
        api.PathIsUNC url || api.PathIsNetworkPath url) = true
    · rw [if_pos hlocal] at hacc
      simp at hacc
    · rw [if_neg hlocal] at hacc ⊢
      cases hc : wcschr url ':' with
      | none => rw [hc] at hacc; simpa using hacc
      | some n =>
        rw [hc] at hacc
        simp only at hacc ⊢
        by_cases hp : IsAccessibleProtocol { g_settings with m_kiosk_mode := true }
            (url.take n) = true
        · have hfour := IsAccessibleProtocol_of_kiosk g_settings _ hp
          have hp2 : IsAccessibleProtocol { g_settings with m_kiosk_mode := false }
              (url.take n) = true := by
            unfold IsAccessibleProtocol
            rw [if_pos hfour]
          have hheur : IsAccessibleURL.heuristics api url = true := by
            simpa [hp] using hacc
          simp [hp2, hheur]
        · simp [hp] at hacc
  · intro hlocal
    simp only [ShellApi.localFileLike] at hlocal
    simp [IsAccessibleURL, hlocal]
  · intro n hc hfile
    unfold IsAccessibleURL
    by_cases hlocal : (api.PathFileExists url || api.UrlIsFileUrl url ||
        api.PathIsUNC url || api.PathIsNetworkPath url) = true
    · rw [if_pos hlocal]
      simp
    · rw [if_neg hlocal, hc]
      have hp : IsAccessibleProtocol { g_settings with m_kiosk_mode := true }
          (url.take n) = false := by
        rw [Bool.eq_false_iff]
        intro h
        have hfour := IsAccessibleProtocol_of_kiosk g_settings _ h
        rw [hfile] at hfour
        revert hfour
        decide
      simp [hp]

theorem C24_kiosk_tightens_witness :
    IsAccessibleURL shellNoFiles { settingsBlacklist with m_kiosk_mode := true }
      (L "file:///C:/x.html") = false :=
  (C24_kiosk_tightens shellNoFiles settingsBlacklist (L "file:///C:/x.html")).2.2 4
    (by decide) (by decide)

/-- C25: for a URL that is not local-file-like and whose text before the first `:`
equals `http`, `https`, `view-source`, `about` or `file` up to letter case but not
exactly, `IsAccessibleProtocol` returns FALSE for that text and `IsAccessibleURL`
returns FALSE, for every configuration and whatever the shell says of the URL. -/
theorem C25_scheme_case_sensitive (api : ShellApi) (g_settings : Settings)
    (url : WString) (n : Nat) (hlocal : api.localFileLike url = false)
    (hcolon : wcschr url ':' = some n)
    (_hcase : (url.take n).map Char.toLower ∈
      [L "http", L "https", L "view-source", L "about", L "file"])
    (hexact : url.take n ∉ [L "http", L "https", L "view-source", L "about", L "file"]) :
    IsAccessibleProtocol g_settings (url.take n) = false ∧
    IsAccessibleURL api g_settings url = false := by
  simp only [List.mem_cons, List.mem_singleton, List.not_mem_nil, or_false, not_or]
    at hexact
  obtain ⟨h1, h2, h3, h4, h5⟩ := hexact
  have hp : IsAccessibleProtocol g_settings (url.take n) = false := by
    unfold IsAccessibleProtocol
    rw [if_neg (by tauto)]
    simp [h5]
  simp only [ShellApi.localFileLike] at hlocal
  exact ⟨hp, by simp [IsAccessibleURL, hlocal, hcolon, hp]⟩

theorem C25_scheme_case_sensitive_witness :
    IsAccessibleProtocol { settingsBlacklist with m_local_file_access := true }
      ((L "HTTP://example.com/").take 4) = false ∧
    IsAccessibleURL shellNoFiles { settingsBlacklist with m_local_file_access := true }
      (L "HTTP://example.com/") = false :=
  C25_scheme_case_sensitive shellNoFiles
    { settingsBlacklist with m_local_file_access := true } (L "HTTP://example.com/") 4
    (by decide) (by decide) (by decide) (by decide)

/-- C26: when the blacklist holds the empty string, `UrlInBlackList` returns TRUE for
every URL and every top-frame BeforeNavigate is cancelled; with an empty blacklist it
returns FALSE for every URL; and a blacklist that holds every entry of another one
returns TRUE wherever the other one does. -/
theorem C26_blacklist_edge_cases (g_settings : Settings) (url : WString) :
    (L "" ∈ g_settings.m_black_list →
      UrlInBlackList g_settings url = true ∧
      ∀ (api : ShellApi) (host : Host) (pDispatch : Nat) (Cancel : Int) (app : App),
        host.get_Application = some pDispatch →
        (OnBeforeNavigate2 api g_settings host pDispatch url Cancel app).2 =
          VARIANT_TRUE) ∧
    (g_settings.m_black_list = [] → UrlInBlackList g_settings url = false) ∧
    (∀ larger : Settings,
      (∀ item ∈ g_settings.m_black_list, item ∈ larger.m_black_list) →
      UrlInBlackList g_settings url = true → UrlInBlackList larger url = true) := by
  refine ⟨?_, ?_, ?_⟩
  · intro hmem
    have hbl : UrlInBlackList g_settings url = true := by
      simp only [UrlInBlackList, List.any_eq_true]
      exact ⟨L "", hmem, (wfind_isSome_iff _ _).mpr ⟨[], url, rfl⟩⟩
    refine ⟨hbl, ?_⟩
    intro api host pDispatch Cancel app htop
    obtain ⟨nID, hr⟩ := OnBeforeNavigate2_blocked api g_settings host pDispatch url
      Cancel app htop (Or.inl hbl)
    rw [hr]
  · intro hnil
    simp [UrlInBlackList, hnil]
  · intro larger hsub h
    simp only [UrlInBlackList, List.any_eq_true] at h ⊢
    obtain ⟨item, hmem, hfound⟩ := h
    exact ⟨item, hsub item hmem, hfound⟩

theorem C26_blacklist_edge_cases_witness :
    UrlInBlackList { settingsBlacklist with m_black_list := [L "x", L ""] } (L "") =
      true :=
  ((C26_blacklist_edge_cases { settingsBlacklist with m_black_list := [L "x", L ""] }
    (L "")).1 (by decide)).1

/-! ## Release of the connection point -/

/-- C27 at its failing input: after a `Connect` whose `FindConnectionPoint` succeeds
and whose `Advise` fails, followed by `Disconnect`, the adapter still holds the
connection point and no `Release` was called on it. -/
theorem C27_connection_point_leak :
    (runOps [.Connect ⟨true, some 1, none⟩ 1, .Disconnect]
      MEventSink.Create).1.m_pConnectPoint = some 1 ∧
    (runOps [.Connect ⟨true, some 1, none⟩ 1, .Disconnect] MEventSink.Create).2 =
      [.QueryInterface true, .FindConnectionPoint (some 1), .Advise 1 none,
       .pContainer_Release] := by
  decide

/-! ## Unescaping, file names and shortcuts -/

theorem unescape_esc (t : WString) : unescape (esc t) = t := by
  induction t with
  | nil => rfl
  | cons c rest ih =>
    rw [esc_cons]
    by_cases h1 : c = '<'
    · rw [if_pos h1, h1]
      show unescape ('&' :: 'l' :: 't' :: ';' :: esc rest) = _
      rw [unescape, ih]
    · rw [if_neg h1]
      by_cases h2 : c = '>'
      · rw [if_pos h2, h2]
        show unescape ('&' :: 'g' :: 't' :: ';' :: esc rest) = _
        rw [unescape, ih]
      · rw [if_neg h2]
        by_cases h3 : c = '&'
        · rw [if_pos h3, h3]
          show unescape ('&' :: 'a' :: 'm' :: 'p' :: ';' :: esc rest) = _
          rw [unescape, ih]
        · rw [if_neg h3]
          show unescape (c :: esc rest) = _
          rw [unescape, ih]
          all_goals
            intro r hr
            exact absurd hr h3

theorem stripShell_text2html (t : WString) : stripShell (text2html t) = esc t := by
  simp only [stripShell, text2html, text2html_contents_eq_esc, List.append_assoc,
    List.drop_left, List.length_append]
  rw [show (L "<html><body><pre>").length + ((esc t).length +
      (L "</pre></body></html>").length) - (L "<html><body><pre>").length -
      (L "</pre></body></html>").length = (esc t).length by omega]
  exact List.take_left _ _

/-- C28: stripping the fixed prefix and suffix from `text2html t` and replacing the
entities from left to right gives back `t`, for every text `t`; hence `text2html` is
injective, also on texts that already contain entity-like sequences. -/
theorem C28_text2html_roundtrip (t : WString) :
    unescape (stripShell (text2html t)) = t ∧
    (∀ t2 : WString, text2html t = text2html t2 → t = t2) ∧
    unescape (stripShell (text2html (L "&lt;"))) = L "&lt;" ∧
    unescape (stripShell (text2html (L "&amp;amp;"))) = L "&amp;amp;" ∧
    text2html (L "&lt;") ≠ text2html (L "<") := by
  have hround : ∀ s : WString, unescape (stripShell (text2html s)) = s := by
    intro s
    rw [stripShell_text2html, unescape_esc]
  refine ⟨hround t, ?_, hround _, hround _, by decide⟩
  intro t2 h
  rw [← hround t, h, hround t2]

theorem C28_text2html_roundtrip_witness :
    unescape (stripShell (text2html (L "a<b&amp;"))) = L "a<b&amp;" :=
  (C28_text2html_roundtrip (L "a<b&amp;")).1

theorem wcschr_isSome_iff (s : WString) (ch : Char) :
    (wcschr s ch).isSome = true ↔ ch ∈ s ∨ ch = '\x00' := by
  induction s with
  | nil => simp [wcschr]
  | cons c t ih =>
    simp only [wcschr]
    by_cases h : c = ch
    · simp [h]
    · rw [if_neg h, Option.isSome_map', ih]
      simp [Ne.symm h]

/-- C29: `ConvertStringToFilename s` has the length of `s`, contains none of the nine
reserved characters, has `_` wherever `s` has a reserved character, agrees with `s`
wherever `s` has a character that is neither reserved nor NUL, and applying it twice
equals applying it once. -/
theorem C29_filename (s : WString) :
    (ConvertStringToFilename s).length = s.length ∧
    (∀ c ∈ L "\\/:*?\"<>|", c ∉ ConvertStringToFilename s) ∧
    (∀ i c, s.get? i = some c → c ∈ L "\\/:*?\"<>|" →
      (ConvertStringToFilename s).get? i = some '_') ∧
    (∀ i c, s.get? i = some c → c ∉ L "\\/:*?\"<>|" → c ≠ '\x00' →
      (ConvertStringToFilename s).get? i = some c) ∧
    ConvertStringToFilename (ConvertStringToFilename s) = ConvertStringToFilename s := by
  have hus : (wcschr (L "\\/:*?\"<>|") '_').isSome = false := by decide
  refine ⟨?_, ?_, ?_, ?_, ?_⟩
  · simp [ConvertStringToFilename]
  · intro c hc hmem
    simp only [ConvertStringToFilename, List.mem_map] at hmem
    obtain ⟨w, _, hw⟩ := hmem
    by_cases hres : (wcschr (L "\\/:*?\"<>|") w).isSome = true
    · rw [if_pos hres] at hw
      rw [← hw] at hc
      revert hc
      decide
    · rw [if_neg hres] at hw
      rw [hw] at hres
      exact hres ((wcschr_isSome_iff _ _).mpr (Or.inl hc))
  · intro i c hi hc
    rw [List.get?_eq_getElem?] at hi ⊢
    simp only [ConvertStringToFilename, List.getElem?_map, hi, Option.map_some']
    rw [if_pos ((wcschr_isSome_iff _ _).mpr (Or.inl hc))]
  · intro i c hi hc hnul
    rw [List.get?_eq_getElem?] at hi ⊢
    simp only [ConvertStringToFilename, List.getElem?_map, hi, Option.map_some']
    rw [if_neg (fun h => ((wcschr_isSome_iff _ _).mp h).elim hc hnul)]
  · simp only [ConvertStringToFilename, List.map_map]
    apply List.map_congr_left
    intro w _
    simp only [Function.comp]
    by_cases hres : (wcschr (L "\\/:*?\"<>|") w).isSome = true
    · rw [if_pos hres, hus]
      simp
    · rw [if_neg hres, if_neg hres]

theorem C29_filename_witness :
    (ConvertStringToFilename (L "a/b:c")).get? 1 = some '_' :=
  (C29_filename (L "a/b:c")).2.2.1 1 '/' rfl (by decide)

/-- The loop of `OnCreateShortcut` from iteration `i` with `n + 1` iterations left
stops at the first candidate that does not exist, or runs all iterations when every
candidate exists. -/
theorem OnCreateShortcut_search_spec (env : ShortcutEnv) (szPath : WString) (n i : Nat)
    (strPath : WString) :
    (∃ k, i ≤ k ∧ k ≤ i + n ∧
      OnCreateShortcut.search env szPath i (n + 1) strPath =
        (OnCreateShortcut.candidate szPath k, k - i + 1) ∧
      env.PathFileExists (OnCreateShortcut.candidate szPath k) = false ∧
      ∀ j, i ≤ j → j < k →
        env.PathFileExists (OnCreateShortcut.candidate szPath j) = true) ∨
    (OnCreateShortcut.search env szPath i (n + 1) strPath =
        (OnCreateShortcut.candidate szPath (i + n), n + 1) ∧
      ∀ j, i ≤ j → j ≤ i + n →
        env.PathFileExists (OnCreateShortcut.candidate szPath j) = true) := by
  induction n generalizing i strPath with
  | zero =>
    cases hex : env.PathFileExists (OnCreateShortcut.candidate szPath i) with
    | false =>
      left
      refine ⟨i, le_refl _, le_refl _, ?_, hex, fun j h1 h2 => absurd h1 (by omega)⟩
      simp [OnCreateShortcut.search, hex]
    | true =>
      right
      refine ⟨by simp [OnCreateShortcut.search, hex], ?_⟩
      intro j h1 h2
      have : j = i := by omega
      rw [this]; exact hex
  | succ n ih =>
    cases hex : env.PathFileExists (OnCreateShortcut.candidate szPath i) with
    | false =>
      left
      refine ⟨i, le_refl _, by omega, ?_, hex, fun j h1 h2 => absurd h1 (by omega)⟩
      simp [OnCreateShortcut.search, hex]
    | true =>
      have hstep : OnCreateShortcut.search env szPath i (n + 1 + 1) strPath =
          ((OnCreateShortcut.search env szPath (i + 1) (n + 1)
              (OnCreateShortcut.candidate szPath i)).1,
            (OnCreateShortcut.search env szPath (i + 1) (n + 1)
              (OnCreateShortcut.candidate szPath i)).2 + 1) := by
        rw [OnCreateShortcut.search]
        simp [hex]
      rcases ih (i + 1) (OnCreateShortcut.candidate szPath i) with
        ⟨k, hk1, hk2, hs, hnot, hall⟩ | ⟨hs, hall⟩
      · left
        refine ⟨k, by omega, by omega, ?_, hnot, ?_⟩
        · rw [hstep, hs]
          simp only [Prod.mk.injEq, true_and]
          omega
        · intro j h1 h2
          by_cases hj : j = i
          · rw [hj]; exact hex
          · exact hall j (by omega) h2
      · right
        refine ⟨?_, ?_⟩
        · rw [hstep, hs]
          simp only [Prod.mk.injEq]
          exact ⟨by rw [show i + 1 + n = i + (n + 1) by omega], trivial⟩
        · intro j h1 h2
          by_cases hj : j = i
          · rw [hj]; exact hex
          · exact hall j (by omega) (by omega)

/-- C30: once the dialog is confirmed and the base path is `szPath`, the loop of
`OnCreateShortcut` runs at most 63 iterations; a shortcut is created only at a path
that does not exist, namely the first of the candidates `szPath.url`,
`szPath (2).url`, ..., `szPath (63).url` that does not exist, and its target is the
current URL without one leading `view-source:`; when all 63 candidates exist, nothing
is created. -/
theorem C30_create_shortcut (env : ShortcutEnv) (app : App) (szPath : WString)
    (hsz : OnCreateShortcut.szPath env app = some szPath) :
    (OnCreateShortcut.search env szPath 1 63 []).2 ≤ 63 ∧
    OnCreateShortcut.candidate szPath 1 = szPath ++ L ".url" ∧
    (∀ i, 2 ≤ i →
      OnCreateShortcut.candidate szPath i =
        szPath ++ L (" (" ++ toString i ++ ")") ++ L ".url") ∧
    (∀ strPath url, OnCreateShortcut env app = some (strPath, url) →
      env.PathFileExists strPath = false ∧
      (∃ k, 1 ≤ k ∧ k ≤ 63 ∧ strPath = OnCreateShortcut.candidate szPath k ∧
        ∀ j, 1 ≤ j → j < k →
          env.PathFileExists (OnCreateShortcut.candidate szPath j) = true) ∧
      (L "view-source:" <+: app.s_strURL →
        url = app.s_strURL.drop (L "view-source:").length) ∧
      (¬ L "view-source:" <+: app.s_strURL → url = app.s_strURL)) ∧
    (∀ k, 1 ≤ k → k ≤ 63 →
      env.PathFileExists (OnCreateShortcut.candidate szPath k) = false →
      (∀ j, 1 ≤ j → j < k →
        env.PathFileExists (OnCreateShortcut.candidate szPath j) = true) →
      ∃ url, OnCreateShortcut env app = some (OnCreateShortcut.candidate szPath k, url)) ∧
    ((∀ j, 1 ≤ j → j ≤ 63 →
        env.PathFileExists (OnCreateShortcut.candidate szPath j) = true) →
      OnCreateShortcut env app = none) := by
  have hspec := OnCreateShortcut_search_spec env szPath 62 1 []
  refine ⟨?_, ?_, ?_, ?_, ?_, ?_⟩
  · rcases hspec with ⟨k, hk1, hk2, hs, _, _⟩ | ⟨hs, _⟩
    · rw [hs]; simp only; omega
    · rw [hs]
  · simp [OnCreateShortcut.candidate]
  · intro i hi
    have : 1 < i := by omega
    simp [OnCreateShortcut.candidate, this]
  · intro strPath url hcreate
    simp only [OnCreateShortcut, hsz] at hcreate
    split at hcreate
    · rename_i hnot
      simp only [Option.some.injEq, Prod.mk.injEq] at hcreate
      obtain ⟨hpath, hurl⟩ := hcreate
      refine ⟨?_, ?_, ?_, ?_⟩
      · rw [← hpath]; simpa using hnot
      · rcases hspec with ⟨k, hk1, hk2, hs, _, hall⟩ | ⟨hs, hall⟩
        · exact ⟨k, hk1, by omega, by rw [← hpath, hs], hall⟩
        · rw [hs] at hnot
          have := hall 63 (by omega) (by omega)
          simp [this] at hnot
      · intro hpre
        rw [← hurl, if_pos ((wfind_eq_zero_iff _ _).mpr hpre)]
      · intro hpre
        rw [← hurl, if_neg (fun h => hpre ((wfind_eq_zero_iff _ _).mp h))]
    · cases hcreate
  · intro k hk1 hk63 hnot hall
    rcases hspec with ⟨k2, h1, h2, hs, hnot2, hall2⟩ | ⟨hs, hall2⟩
    · have hkk : k2 = k := by
        rcases Nat.lt_trichotomy k2 k with h | h | h
        · have := hall k2 h1 h
          rw [hnot2] at this; cases this
        · exact h
        · have := hall2 k hk1 h
          rw [hnot] at this; cases this
      subst hkk
      simp only [OnCreateShortcut, hsz, hs, hnot2]
      exact ⟨_, rfl⟩
    · have := hall2 k hk1 (by omega)
      rw [hnot] at this; cases this
  · intro hall
    rcases hspec with ⟨k, hk1, hk2, _, hnot, _⟩ | ⟨hs, _⟩
    · have := hall k hk1 (by omega)
      rw [hnot] at this; cases this
    · simp only [OnCreateShortcut, hsz, hs]
      simp [hall 63 (by omega) (by omega)]

theorem C30_create_shortcut_witness :
    ∃ url, OnCreateShortcut shortcutEnvOneExists appInit =
      some (OnCreateShortcut.candidate (L "C:\\Desk\\noname") 2, url) :=
  (C30_create_shortcut shortcutEnvOneExists appInit (L "C:\\Desk\\noname")
    (by decide)).2.2.2.2.1 2 (by decide) (by decide) (by decide)
    (fun j h1 h2 => by
      have hj : j = 1 := by omega
      subst hj
      decide)

end SimpleBrowser
